import Mathlib

/-!
Shallow embedding of the hospital-discharge Soroban contract
(`contracts/hospital-discharge/src/{lib.rs, storage.rs, types.rs, errors.rs}`).

Modelling conventions:
* `BytesN<32>` references are opaque content identifiers, stored verbatim and
  never interpreted; they are modelled as `Nat`.
* `u64`/`u32` machine integers are modelled as `Nat`; the only arithmetic that
  could overflow on the validated paths is the `u32` score sum in
  `assess_discharge_readiness`, which is modelled with an explicit `% 2^32`.
* The Soroban persistent store is a structure with one field per `StorageKey`
  variant; `extend_ttl(key, YEAR, YEAR)` is modelled on a per-key TTL map as
  raising the key's remaining TTL to `YEAR_IN_LEDGERS` when it is below it.
* `env.ledger().timestamp()` is the read-only `now` field of the state.
* `caller.require_auth()` is the external host authorization and is not part
  of the core being verified (the spec delegates it to the host); callers are
  carried as opaque `Nat`s and auth always passes in the model.
* Event emission writes nothing to the store and is omitted.
* A contract invocation that returns `Err` is rolled back wholesale by the
  Soroban host: each entry point is the `invoke` wrapper applied to a `_body`
  function translated literally from the Rust (including the mid-loop writes
  of `schedule_followup_appointments`), and `invoke` restores the pre-call
  state whenever the body returns an error.
-/

namespace HospitalDischarge

/-- `errors.rs`: the closed error enumeration. -/
inductive Error where
  | PlanNotFound
  | InvalidDate
  | InvalidScore
  | InvalidInput
  | AlreadyCompleted
  | Unauthorized
deriving DecidableEq, Repr

/-- `storage.rs`: the discriminated key space of the persistent store. -/
inductive StorageKey where
  | Counter
  | AppointmentCounter
  | Plan (id : Nat)
  | Readiness (id : Nat)
  | Orders (id : Nat)
  | HomeHealth (id : Nat)
  | Dme (id : Nat)
  | Appointments (id : Nat)
  | Education (id : Nat)
  | SnfCoord (id : Nat)
  | Completed (id : Nat)
  | Risk (id : Nat)
deriving DecidableEq, Repr

/-- `types.rs`: `FollowUpAppointment`. -/
structure FollowUpAppointment where
  provider_id : Nat
  specialty : Nat
  scheduled_time : Nat
  location_hash : Nat
deriving DecidableEq, Repr

/-- `types.rs`: `ReadinessScore`. -/
structure ReadinessScore where
  discharge_plan_id : Nat
  medical_stability_score : Nat
  functional_status_score : Nat
  support_system_score : Nat
  education_completion_score : Nat
  total_score : Nat
  is_ready : Bool
  assessed_at : Nat
deriving DecidableEq, Repr

/-- `types.rs`: `DischargePlan`. -/
structure DischargePlan where
  patient_id : Nat
  admission_date : Nat
  expected_discharge_date : Nat
  discharge_destination : Nat
  created_at : Nat
  is_completed : Bool
deriving DecidableEq, Repr

/-- `types.rs`: `DischargeOrder`. -/
structure DischargeOrder where
  order_type : Nat
  order_details_hash : Nat
  created_at : Nat
deriving DecidableEq, Repr

/-- `types.rs`: `HomeHealthArrangement`. -/
structure HomeHealthArrangement where
  agency_id : Nat
  service_type : Nat
  frequency_per_week : Nat
  duration_weeks : Nat
  arranged_at : Nat
deriving DecidableEq, Repr

/-- `types.rs`: `DmeOrder`. -/
structure DmeOrder where
  equipment_type : Nat
  supplier_id : Nat
  delivery_date : Nat
  ordered_at : Nat
deriving DecidableEq, Repr

/-- `types.rs`: `EducationRecord`. -/
structure EducationRecord where
  education_topic : Nat
  materials_hash : Nat
  completed : Bool
  provided_at : Nat
deriving DecidableEq, Repr

/-- `types.rs`: `SnfCoordination`. -/
structure SnfCoordination where
  snf_id : Nat
  bed_reserved : Bool
  transfer_date : Nat
  medical_summary_hash : Nat
  coordinated_at : Nat
deriving DecidableEq, Repr

/-- `types.rs`: `ReadmissionRisk`. -/
structure ReadmissionRisk where
  risk_factors : Nat
  risk_score : Nat
  tracked_at : Nat
deriving DecidableEq, Repr

/-- The persistent store plus the ledger clock: one field per `StorageKey`
variant (`Counter`/`AppointmentCounter` are `Option Nat` because the Rust
reads them with `unwrap_or(0)` on an absent key), one TTL per key, and the
read-only ledger timestamp `now`. -/
structure State where
  counter : Option Nat
  appointmentCounter : Option Nat
  plans : Nat → Option DischargePlan
  readiness : Nat → Option ReadinessScore
  orders : Nat → Option (List DischargeOrder)
  homeHealth : Nat → Option HomeHealthArrangement
  dme : Nat → Option (List DmeOrder)
  appointments : Nat → Option (List FollowUpAppointment)
  education : Nat → Option (List EducationRecord)
  snfCoord : Nat → Option SnfCoordination
  completedRec : Nat → Option (Nat × Nat)
  risk : Nat → Option ReadmissionRisk
  ttl : StorageKey → Nat
  now : Nat

/-- `storage.rs`: `YEAR_IN_LEDGERS`, the uniform TTL extension target. -/
def YEAR_IN_LEDGERS : Nat := 6307200

/-- `env.storage().persistent().extend_ttl(&key, YEAR_IN_LEDGERS,
YEAR_IN_LEDGERS)`: if the key's remaining TTL is below the threshold, raise
it to the extend-to value; otherwise leave it. -/
def extend_ttl (s : State) (k : StorageKey) : State :=
  { s with ttl := fun k2 => if k2 = k then max (s.ttl k2) YEAR_IN_LEDGERS else s.ttl k2 }

/-- `storage.rs`: `get_and_increment_counter` — returns the pre-increment
plan counter and persists the incremented value, refreshing its TTL. -/
def get_and_increment_counter (s : State) : Nat × State :=
  let c := s.counter.getD 0
  (c, extend_ttl { s with counter := some (c + 1) } StorageKey.Counter)

/-- `storage.rs`: `get_and_increment_appointment_counter`. -/
def get_and_increment_appointment_counter (s : State) : Nat × State :=
  let c := s.appointmentCounter.getD 0
  (c, extend_ttl { s with appointmentCounter := some (c + 1) } StorageKey.AppointmentCounter)

/-- `storage.rs`: `save_discharge_plan` — builds the `DischargePlan` record
(with `is_completed = false`), stores it under `Plan(id)` and refreshes the
key's TTL. -/
def save_discharge_plan (s : State) (discharge_plan_id : Nat) (patient_id : Nat)
    (admission_date : Nat) (expected_discharge_date : Nat)
    (discharge_destination : Nat) : State :=
  let plan : DischargePlan :=
    { patient_id := patient_id
      admission_date := admission_date
      expected_discharge_date := expected_discharge_date
      discharge_destination := discharge_destination
      created_at := s.now
      is_completed := false }
  extend_ttl
    { s with plans := fun i => if i = discharge_plan_id then some plan else s.plans i }
    (StorageKey.Plan discharge_plan_id)

/-- `storage.rs`: `discharge_plan_exists`. -/
def discharge_plan_exists (s : State) (discharge_plan_id : Nat) : Bool :=
  (s.plans discharge_plan_id).isSome

/-- `storage.rs`: `save_readiness_assessment`. -/
def save_readiness_assessment (s : State) (discharge_plan_id : Nat)
    (r : ReadinessScore) : State :=
  extend_ttl
    { s with readiness := fun i => if i = discharge_plan_id then some r else s.readiness i }
    (StorageKey.Readiness discharge_plan_id)

/-- `storage.rs`: `add_discharge_order` — reads the current list (empty if
absent), pushes the new order, writes the whole list back. -/
def add_discharge_order (s : State) (discharge_plan_id : Nat) (order_type : Nat)
    (order_details_hash : Nat) : State :=
  let order : DischargeOrder :=
    { order_type := order_type
      order_details_hash := order_details_hash
      created_at := s.now }
  let cur := (s.orders discharge_plan_id).getD []
  extend_ttl
    { s with orders := fun i => if i = discharge_plan_id then some (cur ++ [order]) else s.orders i }
    (StorageKey.Orders discharge_plan_id)

/-- `storage.rs`: `save_home_health_arrangement`. -/
def save_home_health_arrangement (s : State) (discharge_plan_id : Nat)
    (agency_id : Nat) (service_type : Nat) (frequency_per_week : Nat)
    (duration_weeks : Nat) : State :=
  let a : HomeHealthArrangement :=
    { agency_id := agency_id
      service_type := service_type
      frequency_per_week := frequency_per_week
      duration_weeks := duration_weeks
      arranged_at := s.now }
  extend_ttl
    { s with homeHealth := fun i => if i = discharge_plan_id then some a else s.homeHealth i }
    (StorageKey.HomeHealth discharge_plan_id)

/-- `storage.rs`: `save_dme_order` (append to the DME order list). -/
def save_dme_order (s : State) (discharge_plan_id : Nat) (equipment_type : Nat)
    (supplier_id : Nat) (delivery_date : Nat) : State :=
  let d : DmeOrder :=
    { equipment_type := equipment_type
      supplier_id := supplier_id
      delivery_date := delivery_date
      ordered_at := s.now }
  let cur := (s.dme discharge_plan_id).getD []
  extend_ttl
    { s with dme := fun i => if i = discharge_plan_id then some (cur ++ [d]) else s.dme i }
    (StorageKey.Dme discharge_plan_id)

/-- `storage.rs`: `save_followup_appointment` — NOTE: the Rust signature takes
an `_appointment_id` parameter but ignores it; only the appointment payload is
appended to the per-plan list. The parameter is kept here verbatim. -/
def save_followup_appointment (s : State) (discharge_plan_id : Nat)
    (_appointment_id : Nat) (appointment : FollowUpAppointment) : State :=
  let cur := (s.appointments discharge_plan_id).getD []
  extend_ttl
    { s with appointments :=
        fun i => if i = discharge_plan_id then some (cur ++ [appointment]) else s.appointments i }
    (StorageKey.Appointments discharge_plan_id)

/-- `storage.rs`: `save_education_record` (append to the education list). -/
def save_education_record (s : State) (discharge_plan_id : Nat)
    (education_topic : Nat) (materials_hash : Nat) (completed : Bool) : State :=
  let r : EducationRecord :=
    { education_topic := education_topic
      materials_hash := materials_hash
      completed := completed
      provided_at := s.now }
  let cur := (s.education discharge_plan_id).getD []
  extend_ttl
    { s with education := fun i => if i = discharge_plan_id then some (cur ++ [r]) else s.education i }
    (StorageKey.Education discharge_plan_id)

/-- `storage.rs`: `save_snf_coordination`. -/
def save_snf_coordination (s : State) (discharge_plan_id : Nat) (snf_id : Nat)
    (bed_reserved : Bool) (transfer_date : Nat) (medical_summary_hash : Nat) : State :=
  let c : SnfCoordination :=
    { snf_id := snf_id
      bed_reserved := bed_reserved
      transfer_date := transfer_date
      medical_summary_hash := medical_summary_hash
      coordinated_at := s.now }
  extend_ttl
    { s with snfCoord := fun i => if i = discharge_plan_id then some c else s.snfCoord i }
    (StorageKey.SnfCoord discharge_plan_id)

/-- `storage.rs`: `mark_discharge_completed` — when the plan record exists its
`is_completed` flag is set and the record written back **without** an
`extend_ttl` on the plan key; then the completion tuple
`(actual_discharge_date, discharge_summary_hash)` is stored under
`Completed(id)` with a TTL refresh. -/
def mark_discharge_completed (s : State) (discharge_plan_id : Nat)
    (actual_discharge_date : Nat) (discharge_summary_hash : Nat) : State :=
  let s1 :=
    match s.plans discharge_plan_id with
    | some plan =>
        { s with plans :=
            fun i => if i = discharge_plan_id then some { plan with is_completed := true }
                     else s.plans i }
    | none => s
  extend_ttl
    { s1 with completedRec :=
        fun i => if i = discharge_plan_id then some (actual_discharge_date, discharge_summary_hash)
                 else s1.completedRec i }
    (StorageKey.Completed discharge_plan_id)

/-- `storage.rs`: `is_discharge_completed` — reads the plan's flag, `false`
when the plan is absent. -/
def is_discharge_completed (s : State) (discharge_plan_id : Nat) : Bool :=
  match s.plans discharge_plan_id with
  | some plan => plan.is_completed
  | none => false

/-- `storage.rs`: `save_readmission_risk`. -/
def save_readmission_risk (s : State) (discharge_plan_id : Nat)
    (risk_factors : Nat) (risk_score : Nat) : State :=
  let r : ReadmissionRisk :=
    { risk_factors := risk_factors
      risk_score := risk_score
      tracked_at := s.now }
  extend_ttl
    { s with risk := fun i => if i = discharge_plan_id then some r else s.risk i }
    (StorageKey.Risk discharge_plan_id)

/-! ## Contract entry points (`lib.rs`)

Each Rust entry point is translated as a `_body` function that threads the
store state exactly as the Rust does (early `return Err(..)` becomes an
`Except.error`), plus the public wrapper `invoke`, which models the Soroban
host's whole-invocation rollback: the post-state of an invocation whose body
errors is the pre-state. -/

/-- The Soroban execution envelope: commit the body's final state on success,
roll back to the pre-invocation state on error. -/
def invoke {α : Type} (s : State) (body : Except Error (α × State)) :
    Except Error α × State :=
  match body with
  | .error e => (.error e, s)
  | .ok (a, s2) => (.ok a, s2)

/-- `lib.rs`: body of `initiate_discharge_planning`. -/
def initiate_discharge_planning_body (s : State) (_caller : Nat) (patient_id : Nat)
    (admission_date : Nat) (expected_discharge_date : Nat)
    (discharge_destination : Nat) : Except Error (Nat × State) :=
  if expected_discharge_date ≤ admission_date then
    .error .InvalidDate
  else
    let (discharge_plan_id, s1) := get_and_increment_counter s
    let s2 := save_discharge_plan s1 discharge_plan_id patient_id admission_date
      expected_discharge_date discharge_destination
    .ok (discharge_plan_id, s2)

/-- `lib.rs`: `initiate_discharge_planning`. -/
def initiate_discharge_planning (s : State) (caller : Nat) (patient_id : Nat)
    (admission_date : Nat) (expected_discharge_date : Nat)
    (discharge_destination : Nat) : Except Error Nat × State :=
  invoke s (initiate_discharge_planning_body s caller patient_id admission_date
    expected_discharge_date discharge_destination)

/-- `lib.rs`: body of `assess_discharge_readiness`. The `u32` score sum is
modelled with its machine wrap-around `% 2^32` made explicit. -/
def assess_discharge_readiness_body (s : State) (_caller : Nat)
    (discharge_plan_id : Nat) (medical_stability_score : Nat)
    (functional_status_score : Nat) (support_system_score : Nat)
    (education_completion_score : Nat) : Except Error (ReadinessScore × State) :=
  if ¬ discharge_plan_exists s discharge_plan_id then
    .error .PlanNotFound
  else if medical_stability_score > 100 ∨ functional_status_score > 100
      ∨ support_system_score > 100 ∨ education_completion_score > 100 then
    .error .InvalidScore
  else
    let total_score := ((medical_stability_score + functional_status_score
      + support_system_score + education_completion_score) % 2 ^ 32) / 4
    let is_ready := total_score ≥ 75
    let readiness : ReadinessScore :=
      { discharge_plan_id := discharge_plan_id
        medical_stability_score := medical_stability_score
        functional_status_score := functional_status_score
        support_system_score := support_system_score
        education_completion_score := education_completion_score
        total_score := total_score
        is_ready := is_ready
        assessed_at := s.now }
    .ok (readiness, save_readiness_assessment s discharge_plan_id readiness)

/-- `lib.rs`: `assess_discharge_readiness`. -/
def assess_discharge_readiness (s : State) (caller : Nat) (discharge_plan_id : Nat)
    (medical_stability_score : Nat) (functional_status_score : Nat)
    (support_system_score : Nat) (education_completion_score : Nat) :
    Except Error ReadinessScore × State :=
  invoke s (assess_discharge_readiness_body s caller discharge_plan_id
    medical_stability_score functional_status_score support_system_score
    education_completion_score)

/-- `lib.rs`: body of `create_discharge_orders`. -/
def create_discharge_orders_body (s : State) (_caller : Nat)
    (discharge_plan_id : Nat) (order_type : Nat) (order_details_hash : Nat) :
    Except Error (Unit × State) :=
  if ¬ discharge_plan_exists s discharge_plan_id then
    .error .PlanNotFound
  else
    .ok ((), add_discharge_order s discharge_plan_id order_type order_details_hash)

/-- `lib.rs`: `create_discharge_orders`. -/
def create_discharge_orders (s : State) (caller : Nat) (discharge_plan_id : Nat)
    (order_type : Nat) (order_details_hash : Nat) : Except Error Unit × State :=
  invoke s (create_discharge_orders_body s caller discharge_plan_id order_type
    order_details_hash)

/-- `lib.rs`: body of `arrange_home_health`. -/
def arrange_home_health_body (s : State) (_caller : Nat) (discharge_plan_id : Nat)
    (agency_id : Nat) (service_type : Nat) (frequency_per_week : Nat)
    (duration_weeks : Nat) : Except Error (Unit × State) :=
  if ¬ discharge_plan_exists s discharge_plan_id then
    .error .PlanNotFound
  else if frequency_per_week = 0 ∨ duration_weeks = 0 then
    .error .InvalidInput
  else
    .ok ((), save_home_health_arrangement s discharge_plan_id agency_id
      service_type frequency_per_week duration_weeks)

/-- `lib.rs`: `arrange_home_health`. -/
def arrange_home_health (s : State) (caller : Nat) (discharge_plan_id : Nat)
    (agency_id : Nat) (service_type : Nat) (frequency_per_week : Nat)
    (duration_weeks : Nat) : Except Error Unit × State :=
  invoke s (arrange_home_health_body s caller discharge_plan_id agency_id
    service_type frequency_per_week duration_weeks)

/-- `lib.rs`: body of `order_dme_for_discharge`. -/
def order_dme_for_discharge_body (s : State) (_caller : Nat)
    (discharge_plan_id : Nat) (equipment_type : Nat) (supplier_id : Nat)
    (delivery_date : Nat) : Except Error (Unit × State) :=
  if ¬ discharge_plan_exists s discharge_plan_id then
    .error .PlanNotFound
  else if delivery_date ≤ s.now then
    .error .InvalidDate
  else
    .ok ((), save_dme_order s discharge_plan_id equipment_type supplier_id delivery_date)

/-- `lib.rs`: `order_dme_for_discharge`. -/
def order_dme_for_discharge (s : State) (caller : Nat) (discharge_plan_id : Nat)
    (equipment_type : Nat) (supplier_id : Nat) (delivery_date : Nat) :
    Except Error Unit × State :=
  invoke s (order_dme_for_discharge_body s caller discharge_plan_id equipment_type
    supplier_id delivery_date)

/-- `lib.rs` 203-221: the `for appointment in appointments.iter()` loop of
`schedule_followup_appointments`: validate the date, draw a fresh appointment
id, append the appointment, collect the id — erroring out mid-loop leaves the
earlier writes in the body's state (undone only by `invoke`'s rollback). -/
def scheduleLoop (discharge_plan_id : Nat) (current_time : Nat) :
    State → List FollowUpAppointment → Except Error (List Nat × State)
  | s, [] => .ok ([], s)
  | s, appointment :: rest =>
      if appointment.scheduled_time ≤ current_time then
        .error .InvalidDate
      else
        let (appointment_id, s1) := get_and_increment_appointment_counter s
        let s2 := save_followup_appointment s1 discharge_plan_id appointment_id appointment
        match scheduleLoop discharge_plan_id current_time s2 rest with
        | .error e => .error e
        | .ok (ids, s3) => .ok (appointment_id :: ids, s3)

/-- `lib.rs`: body of `schedule_followup_appointments`. -/
def schedule_followup_appointments_body (s : State) (_caller : Nat)
    (discharge_plan_id : Nat) (appointments : List FollowUpAppointment) :
    Except Error (List Nat × State) :=
  if ¬ discharge_plan_exists s discharge_plan_id then
    .error .PlanNotFound
  else if appointments.isEmpty then
    .error .InvalidInput
  else
    scheduleLoop discharge_plan_id s.now s appointments

/-- `lib.rs`: `schedule_followup_appointments`. -/
def schedule_followup_appointments (s : State) (caller : Nat)
    (discharge_plan_id : Nat) (appointments : List FollowUpAppointment) :
    Except Error (List Nat) × State :=
  invoke s (schedule_followup_appointments_body s caller discharge_plan_id appointments)

/-- `lib.rs`: body of `provide_discharge_education`. -/
def provide_discharge_education_body (s : State) (_caller : Nat)
    (discharge_plan_id : Nat) (education_topic : Nat) (materials_hash : Nat)
    (completed : Bool) : Except Error (Unit × State) :=
  if ¬ discharge_plan_exists s discharge_plan_id then
    .error .PlanNotFound
  else
    .ok ((), save_education_record s discharge_plan_id education_topic materials_hash completed)

/-- `lib.rs`: `provide_discharge_education`. -/
def provide_discharge_education (s : State) (caller : Nat) (discharge_plan_id : Nat)
    (education_topic : Nat) (materials_hash : Nat) (completed : Bool) :
    Except Error Unit × State :=
  invoke s (provide_discharge_education_body s caller discharge_plan_id
    education_topic materials_hash completed)

/-- `lib.rs`: body of `coordinate_with_snf`. -/
def coordinate_with_snf_body (s : State) (_caller : Nat) (discharge_plan_id : Nat)
    (snf_id : Nat) (bed_reserved : Bool) (transfer_date : Nat)
    (medical_summary_hash : Nat) : Except Error (Unit × State) :=
  if ¬ discharge_plan_exists s discharge_plan_id then
    .error .PlanNotFound
  else if transfer_date ≤ s.now then
    .error .InvalidDate
  else
    .ok ((), save_snf_coordination s discharge_plan_id snf_id bed_reserved
      transfer_date medical_summary_hash)

/-- `lib.rs`: `coordinate_with_snf`. -/
def coordinate_with_snf (s : State) (caller : Nat) (discharge_plan_id : Nat)
    (snf_id : Nat) (bed_reserved : Bool) (transfer_date : Nat)
    (medical_summary_hash : Nat) : Except Error Unit × State :=
  invoke s (coordinate_with_snf_body s caller discharge_plan_id snf_id
    bed_reserved transfer_date medical_summary_hash)

/-- `lib.rs`: body of `complete_discharge`. -/
def complete_discharge_body (s : State) (_caller : Nat) (discharge_plan_id : Nat)
    (actual_discharge_date : Nat) (discharge_summary_hash : Nat) :
    Except Error (Unit × State) :=
  if ¬ discharge_plan_exists s discharge_plan_id then
    .error .PlanNotFound
  else if is_discharge_completed s discharge_plan_id then
    .error .AlreadyCompleted
  else
    .ok ((), mark_discharge_completed s discharge_plan_id actual_discharge_date
      discharge_summary_hash)

/-- `lib.rs`: `complete_discharge`. -/
def complete_discharge (s : State) (caller : Nat) (discharge_plan_id : Nat)
    (actual_discharge_date : Nat) (discharge_summary_hash : Nat) :
    Except Error Unit × State :=
  invoke s (complete_discharge_body s caller discharge_plan_id
    actual_discharge_date discharge_summary_hash)

/-- `lib.rs`: body of `track_readmission_risk`. -/
def track_readmission_risk_body (s : State) (_caller : Nat)
    (discharge_plan_id : Nat) (risk_factors : Nat) (risk_score : Nat) :
    Except Error (Unit × State) :=
  if ¬ discharge_plan_exists s discharge_plan_id then
    .error .PlanNotFound
  else if risk_score > 100 then
    .error .InvalidScore
  else
    .ok ((), save_readmission_risk s discharge_plan_id risk_factors risk_score)

/-- `lib.rs`: `track_readmission_risk`. -/
def track_readmission_risk (s : State) (caller : Nat) (discharge_plan_id : Nat)
    (risk_factors : Nat) (risk_score : Nat) : Except Error Unit × State :=
  invoke s (track_readmission_risk_body s caller discharge_plan_id risk_factors risk_score)

/-! ## Whole-contract operations

`Op` packages one invocation of any of the ten entry points with its
arguments; `run` dispatches it, and `stepState` is the resulting post-state.
This is the quantification domain of "for every operation". -/

/-- One invocation of any contract entry point, with its arguments. -/
inductive Op where
  | initiateDischargePlanning (caller patient_id admission_date expected_discharge_date discharge_destination : Nat)
  | assessDischargeReadiness (caller discharge_plan_id s1 s2 s3 s4 : Nat)
  | createDischargeOrders (caller discharge_plan_id order_type order_details_hash : Nat)
  | arrangeHomeHealth (caller discharge_plan_id agency_id service_type frequency_per_week duration_weeks : Nat)
  | orderDmeForDischarge (caller discharge_plan_id equipment_type supplier_id delivery_date : Nat)
  | scheduleFollowupAppointments (caller discharge_plan_id : Nat) (appointments : List FollowUpAppointment)
  | provideDischargeEducation (caller discharge_plan_id education_topic materials_hash : Nat) (completed : Bool)
  | coordinateWithSnf (caller discharge_plan_id snf_id : Nat) (bed_reserved : Bool) (transfer_date medical_summary_hash : Nat)
  | completeDischarge (caller discharge_plan_id actual_discharge_date discharge_summary_hash : Nat)
  | trackReadmissionRisk (caller discharge_plan_id risk_factors risk_score : Nat)
deriving DecidableEq, Repr

/-- The value an invocation returns on success (entry points differ in
return type). -/
inductive OpResult where
  | planId (id : Nat)
  | readinessScore (r : ReadinessScore)
  | appointmentIds (ids : List Nat)
  | unitResult
deriving DecidableEq, Repr

/-- Dispatch one invocation. -/
def run (s : State) : Op → Except Error OpResult × State
  | .initiateDischargePlanning c p a e d =>
      let (r, s2) := initiate_discharge_planning s c p a e d
      (r.map OpResult.planId, s2)
  | .assessDischargeReadiness c pid s1 s2 s3 s4 =>
      let (r, st) := assess_discharge_readiness s c pid s1 s2 s3 s4
      (r.map OpResult.readinessScore, st)
  | .createDischargeOrders c pid t h =>
      let (r, st) := create_discharge_orders s c pid t h
      (r.map fun _ => OpResult.unitResult, st)
  | .arrangeHomeHealth c pid a t f d =>
      let (r, st) := arrange_home_health s c pid a t f d
      (r.map fun _ => OpResult.unitResult, st)
  | .orderDmeForDischarge c pid e sup del =>
      let (r, st) := order_dme_for_discharge s c pid e sup del
      (r.map fun _ => OpResult.unitResult, st)
  | .scheduleFollowupAppointments c pid apps =>
      let (r, st) := schedule_followup_appointments s c pid apps
      (r.map OpResult.appointmentIds, st)
  | .provideDischargeEducation c pid t m comp =>
      let (r, st) := provide_discharge_education s c pid t m comp
      (r.map fun _ => OpResult.unitResult, st)
  | .coordinateWithSnf c pid snf bed tr sum =>
      let (r, st) := coordinate_with_snf s c pid snf bed tr sum
      (r.map fun _ => OpResult.unitResult, st)
  | .completeDischarge c pid act sum =>
      let (r, st) := complete_discharge s c pid act sum
      (r.map fun _ => OpResult.unitResult, st)
  | .trackReadmissionRisk c pid f sc =>
      let (r, st) := track_readmission_risk s c pid f sc
      (r.map fun _ => OpResult.unitResult, st)

/-- Post-state of one invocation. -/
def stepState (s : State) (op : Op) : State := (run s op).2

/-- The plan id an operation is addressed to — `none` exactly for plan
creation, which takes no plan id. -/
def opPlanId : Op → Option Nat
  | .initiateDischargePlanning _ _ _ _ _ => none
  | .assessDischargeReadiness _ pid _ _ _ _ => some pid
  | .createDischargeOrders _ pid _ _ => some pid
  | .arrangeHomeHealth _ pid _ _ _ _ => some pid
  | .orderDmeForDischarge _ pid _ _ _ => some pid
  | .scheduleFollowupAppointments _ pid _ => some pid
  | .provideDischargeEducation _ pid _ _ _ => some pid
  | .coordinateWithSnf _ pid _ _ _ _ => some pid
  | .completeDischarge _ pid _ _ => some pid
  | .trackReadmissionRisk _ pid _ _ => some pid

/-- Store invariant maintained by the contract: every existing plan id is
below the plan counter (so fresh states and all states reached from them by
`run` never re-allocate an existing plan id). -/
def PlanIdsBelowCounter (s : State) : Prop :=
  ∀ i, (s.plans i).isSome → i < s.counter.getD 0

/-- Argument bundle for one plan-creation call. -/
structure CreateArgs where
  caller : Nat
  patient_id : Nat
  admission_date : Nat
  expected_discharge_date : Nat
  discharge_destination : Nat
deriving DecidableEq, Repr

/-- Run a sequence of plan-creation calls, collecting the plan ids of the
successful ones. -/
def runCreates : State → List CreateArgs → List Nat × State
  | s, [] => ([], s)
  | s, a :: rest =>
      let res := initiate_discharge_planning s a.caller a.patient_id
        a.admission_date a.expected_discharge_date a.discharge_destination
      let next := runCreates res.2 rest
      match res.1 with
      | .ok id => (id :: next.1, next.2)
      | .error _ => next

/-- Fresh storage: no counters, no records, all TTLs zero; the ledger clock
reads 100. -/
def initialState : State :=
  { counter := none
    appointmentCounter := none
    plans := fun _ => none
    readiness := fun _ => none
    orders := fun _ => none
    homeHealth := fun _ => none
    dme := fun _ => none
    appointments := fun _ => none
    education := fun _ => none
    snfCoord := fun _ => none
    completedRec := fun _ => none
    risk := fun _ => none
    ttl := fun _ => 0
    now := 100 }

/-- A concrete plan record used by the witnesses. -/
def basePlan : DischargePlan :=
  { patient_id := 1
    admission_date := 10
    expected_discharge_date := 500
    discharge_destination := 0
    created_at := 10
    is_completed := false }

/-- A store holding the single (not yet completed) plan 0. -/
def planState : State :=
  { initialState with
    counter := some 1
    plans := fun i => if i = 0 then some basePlan else none }

/-- A store where plan 0 has already been completed. -/
def completedPlanState : State :=
  { initialState with
    counter := some 1
    plans := fun i => if i = 0 then some { basePlan with is_completed := true } else none
    completedRec := fun i => if i = 0 then some (400, 7) else none }

/-- A concrete appointment with a future (relative to `now = 100`) scheduled
time. -/
def exApp : FollowUpAppointment :=
  { provider_id := 2
    specialty := 0
    scheduled_time := 300
    location_hash := 3 }

/-- A concrete appointment whose scheduled time is in the past. -/
def lateApp : FollowUpAppointment :=
  { provider_id := 4
    specialty := 1
    scheduled_time := 50
    location_hash := 5 }

/-- Two concrete valid plan-creation argument bundles. -/
def exCreateArgs : List CreateArgs :=
  [ { caller := 1, patient_id := 2, admission_date := 10,
      expected_discharge_date := 20, discharge_destination := 0 },
    { caller := 3, patient_id := 4, admission_date := 5,
      expected_discharge_date := 9, discharge_destination := 1 },
    { caller := 5, patient_id := 6, admission_date := 0,
      expected_discharge_date := 1, discharge_destination := 2 } ]

/-- The readiness record produced by assessing plan 0 of `planState` with the
spec's example scores (80, 75, 85, 70). -/
def exReadiness77 : ReadinessScore :=
  { discharge_plan_id := 0
    medical_stability_score := 80
    functional_status_score := 75
    support_system_score := 85
    education_completion_score := 70
    total_score := 77
    is_ready := true
    assessed_at := 100 }

/-! ## Helper lemmas -/

@[simp] lemma extend_ttl_counter (s : State) (k : StorageKey) :
    (extend_ttl s k).counter = s.counter := rfl

@[simp] lemma extend_ttl_appointmentCounter (s : State) (k : StorageKey) :
    (extend_ttl s k).appointmentCounter = s.appointmentCounter := rfl

@[simp] lemma extend_ttl_plans (s : State) (k : StorageKey) :
    (extend_ttl s k).plans = s.plans := rfl

@[simp] lemma extend_ttl_readiness (s : State) (k : StorageKey) :
    (extend_ttl s k).readiness = s.readiness := rfl

@[simp] lemma extend_ttl_orders (s : State) (k : StorageKey) :
    (extend_ttl s k).orders = s.orders := rfl

@[simp] lemma extend_ttl_homeHealth (s : State) (k : StorageKey) :
    (extend_ttl s k).homeHealth = s.homeHealth := rfl

@[simp] lemma extend_ttl_dme (s : State) (k : StorageKey) :
    (extend_ttl s k).dme = s.dme := rfl

@[simp] lemma extend_ttl_appointments (s : State) (k : StorageKey) :
    (extend_ttl s k).appointments = s.appointments := rfl

@[simp] lemma extend_ttl_education (s : State) (k : StorageKey) :
    (extend_ttl s k).education = s.education := rfl

@[simp] lemma extend_ttl_snfCoord (s : State) (k : StorageKey) :
    (extend_ttl s k).snfCoord = s.snfCoord := rfl

@[simp] lemma extend_ttl_completedRec (s : State) (k : StorageKey) :
    (extend_ttl s k).completedRec = s.completedRec := rfl

@[simp] lemma extend_ttl_risk (s : State) (k : StorageKey) :
    (extend_ttl s k).risk = s.risk := rfl

@[simp] lemma extend_ttl_now (s : State) (k : StorageKey) :
    (extend_ttl s k).now = s.now := rfl

@[simp] lemma extend_ttl_ttl_self (s : State) (k : StorageKey) :
    (extend_ttl s k).ttl k = max (s.ttl k) YEAR_IN_LEDGERS := by
  simp [extend_ttl]

@[simp] lemma extend_ttl_ttl_other (s : State) (k k2 : StorageKey) (h : k2 ≠ k) :
    (extend_ttl s k).ttl k2 = s.ttl k2 := by
  simp [extend_ttl, h]

@[simp] lemma invoke_error {α : Type} (s : State) (e : Error) :
    invoke (α := α) s (.error e) = (.error e, s) := rfl

@[simp] lemma invoke_ok {α : Type} (s : State) (a : α) (s2 : State) :
    invoke s (.ok (a, s2)) = (.ok a, s2) := rfl

/-- The rollback wrapper returns the pre-state whenever the (mapped) result
is an error. -/
lemma invoke_map_error_state {α β : Type} (s : State)
    (b : Except Error (α × State)) (f : α → β) (e : Error)
    (h : (invoke s b).1.map f = .error e) : (invoke s b).2 = s := by
  cases b with
  | error e2 => rfl
  | ok p =>
      exfalso
      obtain ⟨a, s2⟩ := p
      simp [invoke, Except.map] at h

/-- Any invocation that returns an error leaves the whole state unchanged. -/
lemma run_error_state (s : State) (op : Op) (e : Error)
    (h : (run s op).1 = .error e) : (run s op).2 = s := by
  cases op <;>
    exact invoke_map_error_state s _ _ e h

/-- A successful run of the scheduling loop touches only the appointment
counter, the appointment list and TTLs: every other store component of the
final state equals the initial one. -/
lemma scheduleLoop_ok_inv (pid t : Nat) :
    ∀ (l : List FollowUpAppointment) (s s' : State) (ids : List Nat),
      scheduleLoop pid t s l = .ok (ids, s') →
      s'.counter = s.counter ∧ s'.plans = s.plans ∧ s'.readiness = s.readiness
        ∧ s'.orders = s.orders ∧ s'.homeHealth = s.homeHealth ∧ s'.dme = s.dme
        ∧ s'.education = s.education ∧ s'.snfCoord = s.snfCoord
        ∧ s'.completedRec = s.completedRec ∧ s'.risk = s.risk ∧ s'.now = s.now := by
  intro l
  induction l with
  | nil =>
      intro s s' ids h
      simp only [scheduleLoop, Except.ok.injEq, Prod.mk.injEq] at h
      obtain ⟨-, rfl⟩ := h
      simp
  | cons a rest ih =>
      intro s s' ids h
      simp only [scheduleLoop] at h
      by_cases hd : a.scheduled_time ≤ t
      · simp [hd] at h
      · simp only [hd, if_true, if_false] at h
        set s2 := save_followup_appointment
          (get_and_increment_appointment_counter s).2 pid
          (get_and_increment_appointment_counter s).1 a with hs2
        rcases hrec : scheduleLoop pid t s2 rest with e | p
        · rw [hrec] at h; exact absurd h (by simp)
        · obtain ⟨ids2, s3⟩ := p
          rw [hrec] at h
          simp only [Except.ok.injEq, Prod.mk.injEq] at h
          obtain ⟨-, rfl⟩ := h
          have h2 := ih s2 s3 ids2 hrec
          simpa [hs2, save_followup_appointment, get_and_increment_appointment_counter] using h2

/-- When every appointment in the batch has a strictly future scheduled time,
the loop succeeds, returns the consecutive ids drawn from the appointment
counter, appends the whole batch to the plan's list, and advances the counter
by the batch length. -/
lemma scheduleLoop_valid (pid t : Nat) :
    ∀ (l : List FollowUpAppointment) (s : State),
      (∀ a ∈ l, t < a.scheduled_time) →
      ∃ s', scheduleLoop pid t s l
          = .ok (List.range' (s.appointmentCounter.getD 0) l.length, s')
        ∧ s'.appointments pid
            = (if l.isEmpty then s.appointments pid
               else some ((s.appointments pid).getD [] ++ l))
        ∧ s'.appointmentCounter
            = (if l.isEmpty then s.appointmentCounter
               else some (s.appointmentCounter.getD 0 + l.length))
        ∧ (∀ j, j ≠ pid → s'.appointments j = s.appointments j) := by
  intro l
  induction l with
  | nil =>
      intro s _
      exact ⟨s, by simp [scheduleLoop]⟩
  | cons a rest ih =>
      intro s hval
      have hd : ¬ a.scheduled_time ≤ t := Nat.not_le.mpr (hval a (by simp))
      set s2 := save_followup_appointment
        (get_and_increment_appointment_counter s).2 pid
        (get_and_increment_appointment_counter s).1 a with hs2
      obtain ⟨s', hrec, happ, hcnt, hother⟩ :=
        ih s2 (fun b hb => hval b (List.mem_cons_of_mem a hb))
      refine ⟨s', ?_, ?_, ?_, ?_⟩
      · simp only [scheduleLoop, hd, if_false, ← hs2, hrec]
        have hc2 : s2.appointmentCounter.getD 0 = s.appointmentCounter.getD 0 + 1 := by
          simp [hs2, save_followup_appointment, get_and_increment_appointment_counter]
        rw [hc2]
        simp [get_and_increment_appointment_counter, List.range'_succ]
      · have h2 : s2.appointments pid
            = some ((s.appointments pid).getD [] ++ [a]) := by
          simp [hs2, save_followup_appointment, get_and_increment_appointment_counter]
        rcases hrest : rest.isEmpty with _ | _
        · rw [happ, hrest, h2]
          simp [List.append_assoc]
        · have hre : rest = [] := List.isEmpty_iff.mp hrest
          subst hre
          rw [happ]
          simp [h2]
      · have hc2 : s2.appointmentCounter = some (s.appointmentCounter.getD 0 + 1) := by
          simp [hs2, save_followup_appointment, get_and_increment_appointment_counter]
        rcases hrest : rest.isEmpty with _ | _
        · rw [hcnt, hrest, hc2]
          simp [Nat.add_assoc, Nat.add_comm, Nat.add_left_comm]
        · have hre : rest = [] := List.isEmpty_iff.mp hrest
          subst hre
          rw [hcnt]
          simp [hc2]
      · intro j hj
        have := hother j hj
        rw [this]
        simp [hs2, save_followup_appointment, get_and_increment_appointment_counter, hj]

/-- If any appointment in the batch has a non-future scheduled time, the loop
aborts with `InvalidDate`. -/
lemma scheduleLoop_invalid (pid t : Nat) :
    ∀ (l : List FollowUpAppointment) (s : State),
      (∃ a ∈ l, a.scheduled_time ≤ t) →
      scheduleLoop pid t s l = .error .InvalidDate := by
  intro l
  induction l with
  | nil => intro s h; simp at h
  | cons a rest ih =>
      intro s h
      by_cases hd : a.scheduled_time ≤ t
      · simp [scheduleLoop, hd]
      · obtain ⟨b, hb, hbt⟩ := h
        rcases List.mem_cons.mp hb with rfl | hbr
        · exact absurd hbt hd
        · simp only [scheduleLoop, hd, if_false]
          rw [ih _ ⟨b, hbr, hbt⟩]

/-! ### Per-entry-point characterizations -/

/-- `initiate_discharge_planning` with a non-future expected date fails with
`InvalidDate` and leaves the state untouched (no counter consumed). -/
lemma initiate_invalid_date (s : State) (c p ad ed dd : Nat) (h : ed ≤ ad) :
    initiate_discharge_planning s c p ad ed dd = (.error .InvalidDate, s) := by
  simp [initiate_discharge_planning, initiate_discharge_planning_body, h]

/-- Successful plan creation: returns the pre-increment counter value,
persists the incremented counter, writes the fresh plan (not completed) at
that id and touches nothing else relevant. -/
lemma initiate_success (s : State) (c p ad ed dd : Nat) (h : ad < ed) :
    (initiate_discharge_planning s c p ad ed dd).1 = .ok (s.counter.getD 0)
    ∧ (initiate_discharge_planning s c p ad ed dd).2.counter = some (s.counter.getD 0 + 1)
    ∧ (initiate_discharge_planning s c p ad ed dd).2.appointmentCounter = s.appointmentCounter
    ∧ (initiate_discharge_planning s c p ad ed dd).2.plans (s.counter.getD 0)
        = some { patient_id := p, admission_date := ad, expected_discharge_date := ed,
                 discharge_destination := dd, created_at := s.now, is_completed := false }
    ∧ (∀ i, i ≠ s.counter.getD 0 →
        (initiate_discharge_planning s c p ad ed dd).2.plans i = s.plans i)
    ∧ (initiate_discharge_planning s c p ad ed dd).2.completedRec = s.completedRec
    ∧ (initiate_discharge_planning s c p ad ed dd).2.readiness = s.readiness
    ∧ (initiate_discharge_planning s c p ad ed dd).2.now = s.now := by
  have hne : ¬ ed ≤ ad := Nat.not_le.mpr h
  refine ⟨?_, ?_, ?_, ?_, ?_, ?_, ?_, ?_⟩ <;>
    simp [initiate_discharge_planning, initiate_discharge_planning_body, hne,
      get_and_increment_counter, save_discharge_plan]
  intro i hi
  simp [hi]

/-- The post-state of `initiate_discharge_planning` is either the unchanged
pre-state or the state written by `save_discharge_plan` at the freshly drawn
counter value. -/
lemma initiate_post (s : State) (c p ad ed dd : Nat) :
    (initiate_discharge_planning s c p ad ed dd).2 = s
    ∨ (initiate_discharge_planning s c p ad ed dd).2
        = save_discharge_plan (get_and_increment_counter s).2
            (get_and_increment_counter s).1 p ad ed dd := by
  by_cases h : ed ≤ ad
  · left; simp [initiate_discharge_planning, initiate_discharge_planning_body, h]
  · right; simp [initiate_discharge_planning, initiate_discharge_planning_body, h]

/-- The post-state of `assess_discharge_readiness` is either the unchanged
pre-state or a `save_readiness_assessment` of a record whose total score is
at most 100. -/
lemma assess_post (s : State) (c pid a b cc d : Nat) :
    (assess_discharge_readiness s c pid a b cc d).2 = s
    ∨ ∃ r : ReadinessScore,
        (assess_discharge_readiness s c pid a b cc d).2 = save_readiness_assessment s pid r
        ∧ r.total_score ≤ 100 := by
  by_cases h1 : discharge_plan_exists s pid
  · by_cases h2 : a > 100 ∨ b > 100 ∨ cc > 100 ∨ d > 100
    · left
      simp [assess_discharge_readiness, assess_discharge_readiness_body, h1, h2]
    · right
      push_neg at h2
      obtain ⟨ha, hb, hc, hd⟩ := h2
      have hg : ¬ (a > 100 ∨ b > 100 ∨ cc > 100 ∨ d > 100) := by omega
      have hmod : (a + b + cc + d) % 2 ^ 32 = a + b + cc + d :=
        Nat.mod_eq_of_lt (by omega)
      refine ⟨{ discharge_plan_id := pid, medical_stability_score := a,
                functional_status_score := b, support_system_score := cc,
                education_completion_score := d,
                total_score := ((a + b + cc + d) % 2 ^ 32) / 4,
                is_ready := decide (((a + b + cc + d) % 2 ^ 32) / 4 ≥ 75),
                assessed_at := s.now }, ?_, ?_⟩
      · simp [assess_discharge_readiness, assess_discharge_readiness_body, h1, hg]
      · show ((a + b + cc + d) % 2 ^ 32) / 4 ≤ 100
        rw [hmod]
        have hsum : a + b + cc + d ≤ 400 := by omega
        calc (a + b + cc + d) / 4 ≤ 400 / 4 := Nat.div_le_div_right hsum
        _ = 100 := by norm_num
  · left
    simp [assess_discharge_readiness, assess_discharge_readiness_body, h1]

/-- Successful readiness assessment: with an existing plan and all scores in
range, the returned and stored record is fully determined, with the wrap-free
total `(s1+s2+s3+s4)/4`. -/
lemma assess_success (s : State) (c pid a b cc d : Nat)
    (hp : (s.plans pid).isSome) (ha : a ≤ 100) (hb : b ≤ 100) (hc : cc ≤ 100)
    (hd : d ≤ 100) :
    assess_discharge_readiness s c pid a b cc d
      = (.ok { discharge_plan_id := pid, medical_stability_score := a,
               functional_status_score := b, support_system_score := cc,
               education_completion_score := d,
               total_score := (a + b + cc + d) / 4,
               is_ready := decide ((a + b + cc + d) / 4 ≥ 75),
               assessed_at := s.now },
         save_readiness_assessment s pid
           { discharge_plan_id := pid, medical_stability_score := a,
             functional_status_score := b, support_system_score := cc,
             education_completion_score := d,
             total_score := (a + b + cc + d) / 4,
             is_ready := decide ((a + b + cc + d) / 4 ≥ 75),
             assessed_at := s.now }) := by
  have hmod : (a + b + cc + d) % 2 ^ 32 = a + b + cc + d :=
    Nat.mod_eq_of_lt (by omega)
  have hg : ¬ (a > 100 ∨ b > 100 ∨ cc > 100 ∨ d > 100) := by omega
  simp only [assess_discharge_readiness, assess_discharge_readiness_body,
    discharge_plan_exists, hp, not_true, if_false, hg, hmod, ite_false,
    Bool.not_true, invoke_ok]

/-- Readiness assessment with an existing plan and an out-of-range score
fails with `InvalidScore` and leaves the state untouched. -/
lemma assess_invalid_score (s : State) (c pid a b cc d : Nat)
    (hp : (s.plans pid).isSome)
    (h : a > 100 ∨ b > 100 ∨ cc > 100 ∨ d > 100) :
    assess_discharge_readiness s c pid a b cc d = (.error .InvalidScore, s) := by
  simp [assess_discharge_readiness, assess_discharge_readiness_body,
    discharge_plan_exists, hp, h]

/-- Post-state of `create_discharge_orders`: unchanged or an
`add_discharge_order` write. -/
lemma create_orders_post (s : State) (c pid t h : Nat) :
    (create_discharge_orders s c pid t h).2 = s
    ∨ (create_discharge_orders s c pid t h).2 = add_discharge_order s pid t h := by
  by_cases h1 : discharge_plan_exists s pid
  · right; simp [create_discharge_orders, create_discharge_orders_body, h1]
  · left; simp [create_discharge_orders, create_discharge_orders_body, h1]

/-- With an existing plan, `create_discharge_orders` always succeeds and
performs exactly the `add_discharge_order` write. -/
lemma create_orders_success (s : State) (c pid t h : Nat)
    (hp : (s.plans pid).isSome) :
    create_discharge_orders s c pid t h = (.ok (), add_discharge_order s pid t h) := by
  simp [create_discharge_orders, create_discharge_orders_body, discharge_plan_exists, hp]

/-- Post-state of `arrange_home_health`: unchanged or a
`save_home_health_arrangement` write. -/
lemma arrange_post (s : State) (c pid a t f d : Nat) :
    (arrange_home_health s c pid a t f d).2 = s
    ∨ (arrange_home_health s c pid a t f d).2
        = save_home_health_arrangement s pid a t f d := by
  by_cases h1 : discharge_plan_exists s pid
  · by_cases h2 : f = 0 ∨ d = 0
    · left; simp [arrange_home_health, arrange_home_health_body, h1, h2]
    · right; simp [arrange_home_health, arrange_home_health_body, h1, h2]
  · left; simp [arrange_home_health, arrange_home_health_body, h1]

/-- With an existing plan and positive frequency and duration,
`arrange_home_health` succeeds and performs exactly the arrangement write. -/
lemma arrange_success (s : State) (c pid a t f d : Nat)
    (hp : (s.plans pid).isSome) (hf : f ≠ 0) (hd : d ≠ 0) :
    arrange_home_health s c pid a t f d
      = (.ok (), save_home_health_arrangement s pid a t f d) := by
  have h2 : ¬ (f = 0 ∨ d = 0) := by simp [hf, hd]
  simp [arrange_home_health, arrange_home_health_body, discharge_plan_exists, hp, h2]

/-- Post-state of `order_dme_for_discharge`: unchanged or a `save_dme_order`
write. -/
lemma dme_post (s : State) (c pid e sup del : Nat) :
    (order_dme_for_discharge s c pid e sup del).2 = s
    ∨ (order_dme_for_discharge s c pid e sup del).2 = save_dme_order s pid e sup del := by
  by_cases h1 : discharge_plan_exists s pid
  · by_cases h2 : del ≤ s.now
    · left; simp [order_dme_for_discharge, order_dme_for_discharge_body, h1, h2]
    · right; simp [order_dme_for_discharge, order_dme_for_discharge_body, h1, h2]
  · left; simp [order_dme_for_discharge, order_dme_for_discharge_body, h1]

/-- With an existing plan and a strictly future delivery date,
`order_dme_for_discharge` succeeds and performs exactly the DME write. -/
lemma dme_success (s : State) (c pid e sup del : Nat)
    (hp : (s.plans pid).isSome) (hdel : s.now < del) :
    order_dme_for_discharge s c pid e sup del = (.ok (), save_dme_order s pid e sup del) := by
  have h2 : ¬ del ≤ s.now := Nat.not_le.mpr hdel
  simp [order_dme_for_discharge, order_dme_for_discharge_body, discharge_plan_exists, hp, h2]

/-- With an existing plan and a non-future delivery date,
`order_dme_for_discharge` fails with `InvalidDate`, leaving the state
untouched. -/
lemma dme_invalid_date (s : State) (c pid e sup del : Nat)
    (hp : (s.plans pid).isSome) (hdel : del ≤ s.now) :
    order_dme_for_discharge s c pid e sup del = (.error .InvalidDate, s) := by
  simp [order_dme_for_discharge, order_dme_for_discharge_body, discharge_plan_exists, hp, hdel]

/-- Post-state of `schedule_followup_appointments`: unchanged or the final
state of a successful run of the scheduling loop. -/
lemma schedule_post (s : State) (c pid : Nat) (apps : List FollowUpAppointment) :
    (schedule_followup_appointments s c pid apps).2 = s
    ∨ ∃ ids s', scheduleLoop pid s.now s apps = .ok (ids, s')
        ∧ (schedule_followup_appointments s c pid apps).2 = s' := by
  by_cases h1 : discharge_plan_exists s pid
  · by_cases h2 : apps.isEmpty
    · left
      simp [schedule_followup_appointments, schedule_followup_appointments_body, h1, h2]
    · rcases hl : scheduleLoop pid s.now s apps with e | p
      · left
        simp [schedule_followup_appointments, schedule_followup_appointments_body,
          h1, h2, hl]
      · obtain ⟨ids, s'⟩ := p
        right
        exact ⟨ids, s', rfl, by
          simp [schedule_followup_appointments, schedule_followup_appointments_body,
            h1, h2, hl]⟩
  · left
    simp [schedule_followup_appointments, schedule_followup_appointments_body, h1]

/-- Post-state of `provide_discharge_education`: unchanged or a
`save_education_record` write. -/
lemma education_post (s : State) (c pid t m : Nat) (comp : Bool) :
    (provide_discharge_education s c pid t m comp).2 = s
    ∨ (provide_discharge_education s c pid t m comp).2
        = save_education_record s pid t m comp := by
  by_cases h1 : discharge_plan_exists s pid
  · right; simp [provide_discharge_education, provide_discharge_education_body, h1]
  · left; simp [provide_discharge_education, provide_discharge_education_body, h1]

/-- With an existing plan, `provide_discharge_education` always succeeds and
performs exactly the education write. -/
lemma education_success (s : State) (c pid t m : Nat) (comp : Bool)
    (hp : (s.plans pid).isSome) :
    provide_discharge_education s c pid t m comp
      = (.ok (), save_education_record s pid t m comp) := by
  simp [provide_discharge_education, provide_discharge_education_body,
    discharge_plan_exists, hp]

/-- Post-state of `coordinate_with_snf`: unchanged or a
`save_snf_coordination` write. -/
lemma snf_post (s : State) (c pid snf : Nat) (bed : Bool) (tr sum : Nat) :
    (coordinate_with_snf s c pid snf bed tr sum).2 = s
    ∨ (coordinate_with_snf s c pid snf bed tr sum).2
        = save_snf_coordination s pid snf bed tr sum := by
  by_cases h1 : discharge_plan_exists s pid
  · by_cases h2 : tr ≤ s.now
    · left; simp [coordinate_with_snf, coordinate_with_snf_body, h1, h2]
    · right; simp [coordinate_with_snf, coordinate_with_snf_body, h1, h2]
  · left; simp [coordinate_with_snf, coordinate_with_snf_body, h1]

/-- With an existing plan and a strictly future transfer date,
`coordinate_with_snf` succeeds and performs exactly the coordination write. -/
lemma snf_success (s : State) (c pid snf : Nat) (bed : Bool) (tr sum : Nat)
    (hp : (s.plans pid).isSome) (htr : s.now < tr) :
    coordinate_with_snf s c pid snf bed tr sum
      = (.ok (), save_snf_coordination s pid snf bed tr sum) := by
  have h2 : ¬ tr ≤ s.now := Nat.not_le.mpr htr
  simp [coordinate_with_snf, coordinate_with_snf_body, discharge_plan_exists, hp, h2]

/-- With an existing plan and a non-future transfer date,
`coordinate_with_snf` fails with `InvalidDate`, leaving the state
untouched. -/
lemma snf_invalid_date (s : State) (c pid snf : Nat) (bed : Bool) (tr sum : Nat)
    (hp : (s.plans pid).isSome) (htr : tr ≤ s.now) :
    coordinate_with_snf s c pid snf bed tr sum = (.error .InvalidDate, s) := by
  simp [coordinate_with_snf, coordinate_with_snf_body, discharge_plan_exists, hp, htr]

/-- Post-state of `track_readmission_risk`: unchanged or a
`save_readmission_risk` write. -/
lemma risk_post (s : State) (c pid f sc : Nat) :
    (track_readmission_risk s c pid f sc).2 = s
    ∨ (track_readmission_risk s c pid f sc).2 = save_readmission_risk s pid f sc := by
  by_cases h1 : discharge_plan_exists s pid
  · by_cases h2 : sc > 100
    · left; simp [track_readmission_risk, track_readmission_risk_body, h1, h2]
    · right; simp [track_readmission_risk, track_readmission_risk_body, h1, h2]
  · left; simp [track_readmission_risk, track_readmission_risk_body, h1]

/-- With an existing plan and a risk score in range, `track_readmission_risk`
succeeds and performs exactly the risk write. -/
lemma risk_success (s : State) (c pid f sc : Nat)
    (hp : (s.plans pid).isSome) (hsc : sc ≤ 100) :
    track_readmission_risk s c pid f sc = (.ok (), save_readmission_risk s pid f sc) := by
  have h2 : ¬ sc > 100 := Nat.not_lt.mpr hsc
  simp [track_readmission_risk, track_readmission_risk_body, discharge_plan_exists, hp, h2]

/-- `complete_discharge` on an already-completed plan fails with
`AlreadyCompleted` (for any date and summary arguments) and leaves the state
untouched. -/
lemma complete_already_completed (s : State) (c pid act sum : Nat)
    (p : DischargePlan) (hp : s.plans pid = some p) (hc : p.is_completed = true) :
    complete_discharge s c pid act sum = (.error .AlreadyCompleted, s) := by
  have h1 : discharge_plan_exists s pid := by simp [discharge_plan_exists, hp]
  have h2 : is_discharge_completed s pid = true := by
    simp [is_discharge_completed, hp, hc]
  simp [complete_discharge, complete_discharge_body, h1, h2]

/-- Successful completion: on an existing, not-yet-completed plan,
`complete_discharge` returns `ok` and performs exactly the
`mark_discharge_completed` write. -/
lemma complete_success (s : State) (c pid act sum : Nat)
    (p : DischargePlan) (hp : s.plans pid = some p) (hc : p.is_completed = false) :
    complete_discharge s c pid act sum
      = (.ok (), mark_discharge_completed s pid act sum) := by
  have h1 : discharge_plan_exists s pid := by simp [discharge_plan_exists, hp]
  have h2 : is_discharge_completed s pid = false := by
    simp [is_discharge_completed, hp, hc]
  simp [complete_discharge, complete_discharge_body, h1, h2]

/-- Post-state of `complete_discharge`: unchanged, or the
`mark_discharge_completed` write on an existing non-completed plan. -/
lemma complete_post (s : State) (c pid act sum : Nat) :
    (complete_discharge s c pid act sum).2 = s
    ∨ ∃ p : DischargePlan, s.plans pid = some p ∧ p.is_completed = false
        ∧ (complete_discharge s c pid act sum).2 = mark_discharge_completed s pid act sum := by
  rcases hp : s.plans pid with _ | p
  · left
    have h1 : ¬ discharge_plan_exists s pid = true := by simp [discharge_plan_exists, hp]
    simp [complete_discharge, complete_discharge_body, h1]
  · rcases hc : p.is_completed with _ | _
    · right
      refine ⟨p, rfl, hc, ?_⟩
      rw [complete_success s c pid act sum p hp hc]
    · left
      rw [complete_already_completed s c pid act sum p hp hc]

/-- Projection facts of `mark_discharge_completed` on an existing plan: the
plan record at the target id gets `is_completed := true` (with no TTL
extension on the plan key), the completion tuple is stored under the target
id with a TTL refresh, and everything else is unchanged. -/
lemma mark_completed_facts (s : State) (pid act sum : Nat) (p : DischargePlan)
    (hp : s.plans pid = some p) :
    (mark_discharge_completed s pid act sum).plans pid = some { p with is_completed := true }
    ∧ (∀ i, i ≠ pid → (mark_discharge_completed s pid act sum).plans i = s.plans i)
    ∧ (mark_discharge_completed s pid act sum).completedRec pid = some (act, sum)
    ∧ (∀ i, i ≠ pid → (mark_discharge_completed s pid act sum).completedRec i = s.completedRec i)
    ∧ (mark_discharge_completed s pid act sum).counter = s.counter
    ∧ (mark_discharge_completed s pid act sum).appointmentCounter = s.appointmentCounter
    ∧ (mark_discharge_completed s pid act sum).readiness = s.readiness
    ∧ (mark_discharge_completed s pid act sum).ttl (StorageKey.Plan pid)
        = s.ttl (StorageKey.Plan pid)
    ∧ (mark_discharge_completed s pid act sum).ttl (StorageKey.Completed pid)
        = max (s.ttl (StorageKey.Completed pid)) YEAR_IN_LEDGERS := by
  refine ⟨?_, ?_, ?_, ?_, ?_, ?_, ?_, ?_, ?_⟩ <;>
    simp [mark_discharge_completed, hp, extend_ttl]
  · intro i hi; simp [hi]
  · intro i hi; simp [hi]

/-- `stepState` unfolding per constructor. -/
lemma stepState_initiate (s : State) (c p ad ed dd : Nat) :
    stepState s (.initiateDischargePlanning c p ad ed dd)
      = (initiate_discharge_planning s c p ad ed dd).2 := rfl

lemma stepState_assess (s : State) (c pid a b cc d : Nat) :
    stepState s (.assessDischargeReadiness c pid a b cc d)
      = (assess_discharge_readiness s c pid a b cc d).2 := rfl

lemma stepState_orders (s : State) (c pid t h : Nat) :
    stepState s (.createDischargeOrders c pid t h)
      = (create_discharge_orders s c pid t h).2 := rfl

lemma stepState_arrange (s : State) (c pid a t f d : Nat) :
    stepState s (.arrangeHomeHealth c pid a t f d)
      = (arrange_home_health s c pid a t f d).2 := rfl

lemma stepState_dme (s : State) (c pid e sup del : Nat) :
    stepState s (.orderDmeForDischarge c pid e sup del)
      = (order_dme_for_discharge s c pid e sup del).2 := rfl

lemma stepState_schedule (s : State) (c pid : Nat) (apps : List FollowUpAppointment) :
    stepState s (.scheduleFollowupAppointments c pid apps)
      = (schedule_followup_appointments s c pid apps).2 := rfl

lemma stepState_education (s : State) (c pid t m : Nat) (comp : Bool) :
    stepState s (.provideDischargeEducation c pid t m comp)
      = (provide_discharge_education s c pid t m comp).2 := rfl

lemma stepState_snf (s : State) (c pid snf : Nat) (bed : Bool) (tr sum : Nat) :
    stepState s (.coordinateWithSnf c pid snf bed tr sum)
      = (coordinate_with_snf s c pid snf bed tr sum).2 := rfl

lemma stepState_complete (s : State) (c pid act sum : Nat) :
    stepState s (.completeDischarge c pid act sum)
      = (complete_discharge s c pid act sum).2 := rfl

lemma stepState_risk (s : State) (c pid f sc : Nat) :
    stepState s (.trackReadmissionRisk c pid f sc)
      = (track_readmission_risk s c pid f sc).2 := rfl

/-- Every operation preserves the store invariant that existing plan ids lie
strictly below the plan counter. -/
lemma step_preserves_inv (s : State) (op : Op) (h : PlanIdsBelowCounter s) :
    PlanIdsBelowCounter (stepState s op) := by
  cases op with
  | initiateDischargePlanning c p ad ed dd =>
      rw [stepState_initiate]
      rcases initiate_post s c p ad ed dd with hpost | hpost
      · rw [hpost]; exact h
      · rw [hpost]
        intro i hi
        simp only [save_discharge_plan, extend_ttl_plans, extend_ttl_counter,
          get_and_increment_counter] at hi ⊢
        by_cases hic : i = s.counter.getD 0
        · simp [hic]
        · simp only [hic, if_false, ite_false] at hi
          have := h i (by simpa using hi)
          simp
          omega
  | assessDischargeReadiness c pid a b cc d =>
      rw [stepState_assess]
      rcases assess_post s c pid a b cc d with hpost | ⟨r, hpost, -⟩
      · rw [hpost]; exact h
      · rw [hpost]
        intro i hi
        simp only [save_readiness_assessment, extend_ttl_plans, extend_ttl_counter] at hi ⊢
        exact h i hi
  | createDischargeOrders c pid t hh =>
      rw [stepState_orders]
      rcases create_orders_post s c pid t hh with hpost | hpost <;> rw [hpost]
      · exact h
      · intro i hi
        simp only [add_discharge_order, extend_ttl_plans, extend_ttl_counter] at hi ⊢
        exact h i hi
  | arrangeHomeHealth c pid a t f d =>
      rw [stepState_arrange]
      rcases arrange_post s c pid a t f d with hpost | hpost <;> rw [hpost]
      · exact h
      · intro i hi
        simp only [save_home_health_arrangement, extend_ttl_plans, extend_ttl_counter] at hi ⊢
        exact h i hi
  | orderDmeForDischarge c pid e sup del =>
      rw [stepState_dme]
      rcases dme_post s c pid e sup del with hpost | hpost <;> rw [hpost]
      · exact h
      · intro i hi
        simp only [save_dme_order, extend_ttl_plans, extend_ttl_counter] at hi ⊢
        exact h i hi
  | scheduleFollowupAppointments c pid apps =>
      rw [stepState_schedule]
      rcases schedule_post s c pid apps with hpost | ⟨ids, s', hok, hpost⟩
      · rw [hpost]; exact h
      · rw [hpost]
        obtain ⟨hcnt, hplans, -⟩ := scheduleLoop_ok_inv pid s.now apps s s' ids hok
        intro i hi
        rw [hplans] at hi
        rw [hcnt]
        exact h i hi
  | provideDischargeEducation c pid t m comp =>
      rw [stepState_education]
      rcases education_post s c pid t m comp with hpost | hpost <;> rw [hpost]
      · exact h
      · intro i hi
        simp only [save_education_record, extend_ttl_plans, extend_ttl_counter] at hi ⊢
        exact h i hi
  | coordinateWithSnf c pid snf bed tr sum =>
      rw [stepState_snf]
      rcases snf_post s c pid snf bed tr sum with hpost | hpost <;> rw [hpost]
      · exact h
      · intro i hi
        simp only [save_snf_coordination, extend_ttl_plans, extend_ttl_counter] at hi ⊢
        exact h i hi
  | completeDischarge c pid act sum =>
      rw [stepState_complete]
      rcases complete_post s c pid act sum with hpost | ⟨p, hp, hpc, hpost⟩ <;> rw [hpost]
      · exact h
      · obtain ⟨hpid, hother, -, -, hcnt, -⟩ := mark_completed_facts s pid act sum p hp
        intro i hi
        rw [hcnt]
        by_cases hic : i = pid
        · subst hic
          exact h i (by simp [hp])
        · rw [hother i hic] at hi
          exact h i hi
  | trackReadmissionRisk c pid f sc =>
      rw [stepState_risk]
      rcases risk_post s c pid f sc with hpost | hpost <;> rw [hpost]
      · exact h
      · intro i hi
        simp only [save_readmission_risk, extend_ttl_plans, extend_ttl_counter] at hi ⊢
        exact h i hi

/-- Once a plan is completed, no operation resets its flag or changes its
completion record (given the plan-ids-below-counter invariant, which rules
out re-allocating the id). -/
lemma step_preserves_completed (s : State) (op : Op) (pid : Nat)
    (p : DischargePlan) (hInv : PlanIdsBelowCounter s)
    (hp : s.plans pid = some p) (hc : p.is_completed = true) :
    ∃ p', (stepState s op).plans pid = some p' ∧ p'.is_completed = true
      ∧ (stepState s op).completedRec pid = s.completedRec pid := by
  cases op with
  | initiateDischargePlanning c pt ad ed dd =>
      rw [stepState_initiate]
      rcases initiate_post s c pt ad ed dd with hpost | hpost <;> rw [hpost]
      · exact ⟨p, hp, hc, rfl⟩
      · have hlt : pid < s.counter.getD 0 := hInv pid (by simp [hp])
        have hne : pid ≠ s.counter.getD 0 := Nat.ne_of_lt hlt
        refine ⟨p, ?_, hc, ?_⟩ <;>
          simp [save_discharge_plan, get_and_increment_counter, hne, hp]
  | assessDischargeReadiness c pid2 a b cc d =>
      rw [stepState_assess]
      rcases assess_post s c pid2 a b cc d with hpost | ⟨r, hpost, -⟩ <;> rw [hpost]
      · exact ⟨p, hp, hc, rfl⟩
      · exact ⟨p, by simp [save_readiness_assessment, hp], hc,
          by simp [save_readiness_assessment]⟩
  | createDischargeOrders c pid2 t hh =>
      rw [stepState_orders]
      rcases create_orders_post s c pid2 t hh with hpost | hpost <;> rw [hpost]
      · exact ⟨p, hp, hc, rfl⟩
      · exact ⟨p, by simp [add_discharge_order, hp], hc, by simp [add_discharge_order]⟩
  | arrangeHomeHealth c pid2 a t f d =>
      rw [stepState_arrange]
      rcases arrange_post s c pid2 a t f d with hpost | hpost <;> rw [hpost]
      · exact ⟨p, hp, hc, rfl⟩
      · exact ⟨p, by simp [save_home_health_arrangement, hp], hc,
          by simp [save_home_health_arrangement]⟩
  | orderDmeForDischarge c pid2 e sup del =>
      rw [stepState_dme]
      rcases dme_post s c pid2 e sup del with hpost | hpost <;> rw [hpost]
      · exact ⟨p, hp, hc, rfl⟩
      · exact ⟨p, by simp [save_dme_order, hp], hc, by simp [save_dme_order]⟩
  | scheduleFollowupAppointments c pid2 apps =>
      rw [stepState_schedule]
      rcases schedule_post s c pid2 apps with hpost | ⟨ids, s', hok, hpost⟩ <;> rw [hpost]
      · exact ⟨p, hp, hc, rfl⟩
      · obtain ⟨-, hplans, -, -, -, -, -, -, hcompl, -⟩ :=
          scheduleLoop_ok_inv pid2 s.now apps s s' ids hok
        exact ⟨p, by rw [hplans]; exact hp, hc, by rw [hcompl]⟩
  | provideDischargeEducation c pid2 t m comp =>
      rw [stepState_education]
      rcases education_post s c pid2 t m comp with hpost | hpost <;> rw [hpost]
      · exact ⟨p, hp, hc, rfl⟩
      · exact ⟨p, by simp [save_education_record, hp], hc, by simp [save_education_record]⟩
  | coordinateWithSnf c pid2 snf bed tr sum =>
      rw [stepState_snf]
      rcases snf_post s c pid2 snf bed tr sum with hpost | hpost <;> rw [hpost]
      · exact ⟨p, hp, hc, rfl⟩
      · exact ⟨p, by simp [save_snf_coordination, hp], hc, by simp [save_snf_coordination]⟩
  | completeDischarge c pid2 act sum =>
      rw [stepState_complete]
      rcases complete_post s c pid2 act sum with hpost | ⟨q, hq, hqc, hpost⟩ <;> rw [hpost]
      · exact ⟨p, hp, hc, rfl⟩
      · have hne : pid ≠ pid2 := by
          intro hcontra
          subst hcontra
          rw [hp] at hq
          obtain rfl : p = q := by injection hq
          rw [hc] at hqc
          simp at hqc
        obtain ⟨-, hother, -, hotherc, -⟩ := mark_completed_facts s pid2 act sum q hq
        exact ⟨p, by rw [hother pid hne]; exact hp, hc, hotherc pid hne⟩
  | trackReadmissionRisk c pid2 f sc =>
      rw [stepState_risk]
      rcases risk_post s c pid2 f sc with hpost | hpost <;> rw [hpost]
      · exact ⟨p, hp, hc, rfl⟩
      · exact ⟨p, by simp [save_readmission_risk, hp], hc, by simp [save_readmission_risk]⟩

/-- After any operation, the readiness record at any plan id is either what
it was before or a freshly stored record with total score at most 100. -/
lemma step_readiness_bound (s : State) (op : Op) (pid : Nat) :
    (stepState s op).readiness pid = s.readiness pid
    ∨ ∃ r : ReadinessScore, (stepState s op).readiness pid = some r
        ∧ r.total_score ≤ 100 := by
  cases op with
  | initiateDischargePlanning c pt ad ed dd =>
      left
      rw [stepState_initiate]
      rcases initiate_post s c pt ad ed dd with hpost | hpost
      · rw [hpost]
      · rw [hpost]
        simp [save_discharge_plan, get_and_increment_counter]
  | assessDischargeReadiness c pid2 a b cc d =>
      rw [stepState_assess]
      rcases assess_post s c pid2 a b cc d with hpost | ⟨r, hpost, hr⟩
      · left; rw [hpost]
      · rw [hpost]
        by_cases hip : pid = pid2
        · subst hip
          right
          exact ⟨r, by simp [save_readiness_assessment], hr⟩
        · left
          simp [save_readiness_assessment, hip]
  | createDischargeOrders c pid2 t hh =>
      left
      rw [stepState_orders]
      rcases create_orders_post s c pid2 t hh with hpost | hpost
      · rw [hpost]
      · rw [hpost]; simp [add_discharge_order]
  | arrangeHomeHealth c pid2 a t f d =>
      left
      rw [stepState_arrange]
      rcases arrange_post s c pid2 a t f d with hpost | hpost
      · rw [hpost]
      · rw [hpost]; simp [save_home_health_arrangement]
  | orderDmeForDischarge c pid2 e sup del =>
      left
      rw [stepState_dme]
      rcases dme_post s c pid2 e sup del with hpost | hpost
      · rw [hpost]
      · rw [hpost]; simp [save_dme_order]
  | scheduleFollowupAppointments c pid2 apps =>
      left
      rw [stepState_schedule]
      rcases schedule_post s c pid2 apps with hpost | ⟨ids, s', hok, hpost⟩
      · rw [hpost]
      · rw [hpost]
        obtain ⟨-, -, hread, -⟩ := scheduleLoop_ok_inv pid2 s.now apps s s' ids hok
        rw [hread]
  | provideDischargeEducation c pid2 t m comp =>
      left
      rw [stepState_education]
      rcases education_post s c pid2 t m comp with hpost | hpost
      · rw [hpost]
      · rw [hpost]; simp [save_education_record]
  | coordinateWithSnf c pid2 snf bed tr sum =>
      left
      rw [stepState_snf]
      rcases snf_post s c pid2 snf bed tr sum with hpost | hpost
      · rw [hpost]
      · rw [hpost]; simp [save_snf_coordination]
  | completeDischarge c pid2 act sum =>
      left
      rw [stepState_complete]
      rcases complete_post s c pid2 act sum with hpost | ⟨q, hq, hqc, hpost⟩
      · rw [hpost]
      · rw [hpost]
        obtain ⟨-, -, -, -, -, -, hread, -⟩ := mark_completed_facts s pid2 act sum q hq
        rw [hread]
  | trackReadmissionRisk c pid2 f sc =>
      left
      rw [stepState_risk]
      rcases risk_post s c pid2 f sc with hpost | hpost
      · rw [hpost]
      · rw [hpost]; simp [save_readmission_risk]

/-- A sequence of valid plan-creation calls returns the consecutive plan ids
starting at the current counter value and advances the counter by the number
of calls. -/
lemma runCreates_from (args : List CreateArgs) :
    ∀ s : State,
      (∀ a ∈ args, a.admission_date < a.expected_discharge_date) →
      (runCreates s args).1 = List.range' (s.counter.getD 0) args.length
      ∧ (runCreates s args).2.counter.getD 0 = s.counter.getD 0 + args.length := by
  induction args with
  | nil => intro s _; simp [runCreates]
  | cons a rest ih =>
      intro s hval
      have ha := hval a (by simp)
      obtain ⟨h1, h2, -⟩ := initiate_success s a.caller a.patient_id
        a.admission_date a.expected_discharge_date a.discharge_destination ha
      have hnext := ih (initiate_discharge_planning s a.caller a.patient_id
        a.admission_date a.expected_discharge_date a.discharge_destination).2
        (fun b hb => hval b (List.mem_cons_of_mem a hb))
      have hc2 : (initiate_discharge_planning s a.caller a.patient_id
          a.admission_date a.expected_discharge_date a.discharge_destination).2.counter.getD 0
            = s.counter.getD 0 + 1 := by
        rw [h2]; rfl
      constructor
      · simp only [runCreates, h1]
        rw [hnext.1, hc2, List.length_cons, List.range'_succ _ _ 1]
      · simp only [runCreates, h1]
        rw [hnext.2, hc2, List.length_cons]
        omega

/-! ## Claims -/

/-- C1: every operation invocation that returns an error leaves the record
store unchanged; in particular `schedule_followup_appointments` on an
existing plan with a batch [valid, valid, invalid-date] returns `InvalidDate`
and afterwards no appointment of the batch is persisted and the appointment
counter is unchanged, including for the two entries that individually passed
validation earlier in the same call. -/
theorem c1_error_rollback_and_batch_atomicity (s : State) (caller pid : Nat)
    (p : DischargePlan) (a1 a2 a3 : FollowUpAppointment)
    (hp : s.plans pid = some p)
    (h1 : s.now < a1.scheduled_time) (h2 : s.now < a2.scheduled_time)
    (h3 : a3.scheduled_time ≤ s.now) :
    (∀ (s2 : State) (op : Op) (e : Error),
        (run s2 op).1 = .error e → (run s2 op).2 = s2)
    ∧ schedule_followup_appointments s caller pid [a1, a2, a3]
        = (.error .InvalidDate, s)
    ∧ (schedule_followup_appointments s caller pid [a1, a2, a3]).2.appointments pid
        = s.appointments pid
    ∧ (schedule_followup_appointments s caller pid [a1, a2, a3]).2.appointmentCounter
        = s.appointmentCounter := by
  have hmain : schedule_followup_appointments s caller pid [a1, a2, a3]
      = (.error .InvalidDate, s) := by
    have hex : discharge_plan_exists s pid := by simp [discharge_plan_exists, hp]
    have hloop : scheduleLoop pid s.now s [a1, a2, a3] = .error .InvalidDate :=
      scheduleLoop_invalid pid s.now [a1, a2, a3] s ⟨a3, by simp, h3⟩
    simp [schedule_followup_appointments, schedule_followup_appointments_body,
      hex, hloop]
  exact ⟨fun s2 op e h => run_error_state s2 op e h, hmain,
    by rw [hmain], by rw [hmain]⟩

/-- Witness for C1 at a concrete store with plan 0, two valid appointments
and one with a past scheduled time. -/
theorem c1_witness :
    (∀ (s2 : State) (op : Op) (e : Error),
        (run s2 op).1 = .error e → (run s2 op).2 = s2)
    ∧ schedule_followup_appointments planState 5 0 [exApp, exApp, lateApp]
        = (.error .InvalidDate, planState)
    ∧ (schedule_followup_appointments planState 5 0 [exApp, exApp, lateApp]).2.appointments 0
        = planState.appointments 0
    ∧ (schedule_followup_appointments planState 5 0 [exApp, exApp, lateApp]).2.appointmentCounter
        = planState.appointmentCounter :=
  c1_error_rollback_and_batch_atomicity planState 5 0 basePlan exApp exApp lateApp
    rfl (by decide) (by decide) (by decide)

/-- C2: on an existing plan, `complete_discharge` succeeds exactly when the
plan is not yet completed, flipping `is_completed` to true and writing the
completion record; once the plan is completed every further
`complete_discharge` (for any arguments) yields `AlreadyCompleted`, and no
operation whatsoever resets the flag or mutates the completion record
(the plan-ids-below-counter invariant, itself preserved by every operation,
rules out re-allocating the plan id). -/
theorem c2_complete_discharge_lifecycle (s : State) (pid : Nat)
    (p : DischargePlan) (hp : s.plans pid = some p) :
    (p.is_completed = false → ∀ c act sum,
        complete_discharge s c pid act sum
          = (.ok (), mark_discharge_completed s pid act sum)
        ∧ (complete_discharge s c pid act sum).2.plans pid
            = some { p with is_completed := true }
        ∧ (complete_discharge s c pid act sum).2.completedRec pid = some (act, sum))
    ∧ (p.is_completed = true → ∀ c act sum,
        complete_discharge s c pid act sum = (.error .AlreadyCompleted, s))
    ∧ (p.is_completed = true → PlanIdsBelowCounter s → ∀ op : Op,
        (∃ p', (stepState s op).plans pid = some p' ∧ p'.is_completed = true
          ∧ (stepState s op).completedRec pid = s.completedRec pid)
        ∧ PlanIdsBelowCounter (stepState s op)) := by
  refine ⟨?_, ?_, ?_⟩
  · intro hc c act sum
    have h := complete_success s c pid act sum p hp hc
    obtain ⟨hplan, -, hcomp, -⟩ := mark_completed_facts s pid act sum p hp
    exact ⟨h, by rw [h]; exact hplan, by rw [h]; exact hcomp⟩
  · intro hc c act sum
    exact complete_already_completed s c pid act sum p hp hc
  · intro hc hInv op
    exact ⟨step_preserves_completed s op pid p hInv hp hc, step_preserves_inv s op hInv⟩

/-- Witness for C2 at the concrete store holding the fresh plan 0. -/
theorem c2_witness :
    (basePlan.is_completed = false → ∀ c act sum,
        complete_discharge planState c 0 act sum
          = (.ok (), mark_discharge_completed planState 0 act sum)
        ∧ (complete_discharge planState c 0 act sum).2.plans 0
            = some { basePlan with is_completed := true }
        ∧ (complete_discharge planState c 0 act sum).2.completedRec 0 = some (act, sum))
    ∧ (basePlan.is_completed = true → ∀ c act sum,
        complete_discharge planState c 0 act sum = (.error .AlreadyCompleted, planState))
    ∧ (basePlan.is_completed = true → PlanIdsBelowCounter planState → ∀ op : Op,
        (∃ p', (stepState planState op).plans 0 = some p' ∧ p'.is_completed = true
          ∧ (stepState planState op).completedRec 0 = planState.completedRec 0)
        ∧ PlanIdsBelowCounter (stepState planState op)) :=
  c2_complete_discharge_lifecycle planState 0 basePlan rfl

/-- C3: on an existing plan, `assess_discharge_readiness` with all four
sub-scores at most 100 stores and returns a record whose total is the floor
average and whose readiness flag is total ≥ 75; (80,75,85,70) gives 77/ready,
(60,50,70,65) gives 61/not-ready, and any sub-score above 100 gives
`InvalidScore` with nothing stored. -/
theorem c3_readiness_formula (s : State) (caller pid : Nat) (p : DischargePlan)
    (hp : s.plans pid = some p) :
    (∀ a b cc d, a ≤ 100 → b ≤ 100 → cc ≤ 100 → d ≤ 100 →
      ∃ r : ReadinessScore,
        assess_discharge_readiness s caller pid a b cc d
          = (.ok r, save_readiness_assessment s pid r)
        ∧ r.total_score = (a + b + cc + d) / 4
        ∧ r.is_ready = decide ((a + b + cc + d) / 4 ≥ 75)
        ∧ (assess_discharge_readiness s caller pid a b cc d).2.readiness pid = some r)
    ∧ (∃ r : ReadinessScore,
        (assess_discharge_readiness s caller pid 80 75 85 70).1 = .ok r
        ∧ r.total_score = 77 ∧ r.is_ready = true
        ∧ (assess_discharge_readiness s caller pid 80 75 85 70).2.readiness pid = some r)
    ∧ (∃ r : ReadinessScore,
        (assess_discharge_readiness s caller pid 60 50 70 65).1 = .ok r
        ∧ r.total_score = 61 ∧ r.is_ready = false
        ∧ (assess_discharge_readiness s caller pid 60 50 70 65).2.readiness pid = some r)
    ∧ (∀ a b cc d, a > 100 ∨ b > 100 ∨ cc > 100 ∨ d > 100 →
        assess_discharge_readiness s caller pid a b cc d = (.error .InvalidScore, s)) := by
  have hps : (s.plans pid).isSome := by simp [hp]
  have hgen : ∀ a b cc d, a ≤ 100 → b ≤ 100 → cc ≤ 100 → d ≤ 100 →
      ∃ r : ReadinessScore,
        assess_discharge_readiness s caller pid a b cc d
          = (.ok r, save_readiness_assessment s pid r)
        ∧ r.total_score = (a + b + cc + d) / 4
        ∧ r.is_ready = decide ((a + b + cc + d) / 4 ≥ 75)
        ∧ (assess_discharge_readiness s caller pid a b cc d).2.readiness pid = some r := by
    intro a b cc d ha hb hc hd
    refine ⟨_, assess_success s caller pid a b cc d hps ha hb hc hd, rfl, rfl, ?_⟩
    rw [assess_success s caller pid a b cc d hps ha hb hc hd]
    simp [save_readiness_assessment]
  refine ⟨hgen, ?_, ?_, ?_⟩
  · obtain ⟨r, heq, ht, hr, hst⟩ := hgen 80 75 85 70 (by norm_num) (by norm_num)
      (by norm_num) (by norm_num)
    exact ⟨r, by rw [heq], by rw [ht], by rw [hr]; decide, hst⟩
  · obtain ⟨r, heq, ht, hr, hst⟩ := hgen 60 50 70 65 (by norm_num) (by norm_num)
      (by norm_num) (by norm_num)
    exact ⟨r, by rw [heq], by rw [ht], by rw [hr]; decide, hst⟩
  · intro a b cc d h
    exact assess_invalid_score s caller pid a b cc d hps h

/-- Witness for C3 at the concrete store holding plan 0, with the general
part instantiated at the spec's example scores. -/
theorem c3_witness :
    (∃ r : ReadinessScore,
      assess_discharge_readiness planState 5 0 80 75 85 70
        = (.ok r, save_readiness_assessment planState 0 r)
      ∧ r.total_score = (80 + 75 + 85 + 70) / 4
      ∧ r.is_ready = decide ((80 + 75 + 85 + 70) / 4 ≥ 75)
      ∧ (assess_discharge_readiness planState 5 0 80 75 85 70).2.readiness 0 = some r) :=
  (c3_readiness_formula planState 5 0 basePlan rfl).1 80 75 85 70
    (by norm_num) (by norm_num) (by norm_num) (by norm_num)

/-- C4: the plan counter returns its pre-increment value and persists the
incremented one, and any sequence of N valid plan-creation calls against
fresh storage returns exactly the ids 0,1,...,N-1 — pairwise distinct and
strictly increasing by 1. -/
theorem c4_plan_id_allocation :
    (∀ s : State, (get_and_increment_counter s).1 = s.counter.getD 0
      ∧ (get_and_increment_counter s).2.counter = some (s.counter.getD 0 + 1))
    ∧ (∀ args : List CreateArgs,
        (∀ a ∈ args, a.admission_date < a.expected_discharge_date) →
        (runCreates initialState args).1 = List.range args.length
        ∧ (runCreates initialState args).1.Nodup
        ∧ (runCreates initialState args).1.Pairwise (· < ·)) := by
  constructor
  · intro s; exact ⟨rfl, rfl⟩
  · intro args hval
    have h := runCreates_from args initialState hval
    have h0 : initialState.counter.getD 0 = 0 := rfl
    rw [h0] at h
    refine ⟨?_, ?_, ?_⟩
    · rw [h.1]; exact (List.range_eq_range' args.length).symm
    · rw [h.1]; exact List.nodup_range' _ _ 1 (by norm_num)
    · rw [h.1]; exact List.pairwise_lt_range' _ _ 1 (by norm_num)

/-- Witness for C4 on a concrete sequence of three valid creation calls. -/
theorem c4_witness :
    (runCreates initialState exCreateArgs).1 = List.range exCreateArgs.length
    ∧ (runCreates initialState exCreateArgs).1.Nodup
    ∧ (runCreates initialState exCreateArgs).1.Pairwise (· < ·) :=
  c4_plan_id_allocation.2 exCreateArgs (by decide)

/-- C5 counterexample: the persisted appointment record is not associated
with its assigned appointment id — `save_followup_appointment` ignores its
appointment-id argument entirely (storing under ids 0 and 999 produces the
identical store), and the record appended for the plan is the bare
appointment payload, which carries no id field. -/
theorem c5_counterexample :
    save_followup_appointment planState 0 0 exApp
      = save_followup_appointment planState 0 999 exApp
    ∧ (save_followup_appointment planState 0 0 exApp).appointments 0 = some [exApp] := by
  constructor
  · rfl
  · simp [save_followup_appointment, planState, initialState]

/-- C5 (amended): appointment ids are drawn from the single shared counter —
one successful batch of length n on any plan returns exactly the consecutive
ids c, c+1, ..., c+n-1 (strictly increasing, all within [c, c+n)) where c is
the shared counter's current value, and persists the counter advanced to
c+n, so ids are globally unique across plans and never reused; the batch's
appointment payloads are appended to the plan's list, but the assigned ids
are only returned to the caller, not stored with the records. -/
theorem c5_appointment_id_allocation (s : State) (caller pid : Nat)
    (p : DischargePlan) (apps : List FollowUpAppointment)
    (hp : s.plans pid = some p) (hne : apps ≠ [])
    (hval : ∀ a ∈ apps, s.now < a.scheduled_time) :
    (schedule_followup_appointments s caller pid apps).1
        = .ok (List.range' (s.appointmentCounter.getD 0) apps.length)
    ∧ (schedule_followup_appointments s caller pid apps).2.appointmentCounter
        = some (s.appointmentCounter.getD 0 + apps.length)
    ∧ (List.range' (s.appointmentCounter.getD 0) apps.length).Pairwise (· < ·)
    ∧ (∀ i ∈ List.range' (s.appointmentCounter.getD 0) apps.length,
        s.appointmentCounter.getD 0 ≤ i ∧ i < s.appointmentCounter.getD 0 + apps.length)
    ∧ (schedule_followup_appointments s caller pid apps).2.appointments pid
        = some ((s.appointments pid).getD [] ++ apps) := by
  have hex : discharge_plan_exists s pid := by simp [discharge_plan_exists, hp]
  have hemp : apps.isEmpty = false := by
    cases apps with
    | nil => exact absurd rfl hne
    | cons a rest => rfl
  obtain ⟨s', hloop, happ, hcnt, -⟩ := scheduleLoop_valid pid s.now apps s hval
  have heq : schedule_followup_appointments s caller pid apps
      = (.ok (List.range' (s.appointmentCounter.getD 0) apps.length), s') := by
    simp [schedule_followup_appointments, schedule_followup_appointments_body,
      hex, hemp, hloop]
  refine ⟨by rw [heq], ?_, ?_, ?_, ?_⟩
  · rw [heq]
    show s'.appointmentCounter = _
    rw [hcnt, hemp]
    simp
  · exact List.pairwise_lt_range' _ _ 1 (by norm_num)
  · intro i hi
    exact List.mem_range'_1.mp hi
  · rw [heq]
    show s'.appointments pid = _
    rw [happ, hemp]
    simp

/-- Witness for C5's amended statement: one batch of one valid appointment on
the concrete store with plan 0. -/
theorem c5_witness :
    (schedule_followup_appointments planState 5 0 [exApp]).1
        = .ok (List.range' (planState.appointmentCounter.getD 0) [exApp].length)
    ∧ (schedule_followup_appointments planState 5 0 [exApp]).2.appointmentCounter
        = some (planState.appointmentCounter.getD 0 + [exApp].length)
    ∧ (List.range' (planState.appointmentCounter.getD 0) [exApp].length).Pairwise (· < ·)
    ∧ (∀ i ∈ List.range' (planState.appointmentCounter.getD 0) [exApp].length,
        planState.appointmentCounter.getD 0 ≤ i
        ∧ i < planState.appointmentCounter.getD 0 + [exApp].length)
    ∧ (schedule_followup_appointments planState 5 0 [exApp]).2.appointments 0
        = some ((planState.appointments 0).getD [] ++ [exApp]) :=
  c5_appointment_id_allocation planState 5 0 basePlan [exApp] rfl
    (by decide) (by decide)

/-- C6: every operation that takes a plan id, called with a plan id that is
absent from the store, fails with `PlanNotFound` and changes nothing. -/
theorem c6_plan_not_found_gating (s : State) (op : Op) (pid : Nat)
    (hpid : opPlanId op = some pid) (hnone : s.plans pid = none) :
    run s op = (.error .PlanNotFound, s) := by
  have hex : discharge_plan_exists s pid = false := by
    simp [discharge_plan_exists, hnone]
  cases op with
  | initiateDischargePlanning c p a e d => simp [opPlanId] at hpid
  | assessDischargeReadiness c pid2 a b cc d =>
      obtain rfl : pid2 = pid := by simpa [opPlanId] using hpid
      simp [run, assess_discharge_readiness, assess_discharge_readiness_body,
        hex, Except.map]
  | createDischargeOrders c pid2 t h =>
      obtain rfl : pid2 = pid := by simpa [opPlanId] using hpid
      simp [run, create_discharge_orders, create_discharge_orders_body, hex, Except.map]
  | arrangeHomeHealth c pid2 a t f d =>
      obtain rfl : pid2 = pid := by simpa [opPlanId] using hpid
      simp [run, arrange_home_health, arrange_home_health_body, hex, Except.map]
  | orderDmeForDischarge c pid2 e sup del =>
      obtain rfl : pid2 = pid := by simpa [opPlanId] using hpid
      simp [run, order_dme_for_discharge, order_dme_for_discharge_body, hex, Except.map]
  | scheduleFollowupAppointments c pid2 apps =>
      obtain rfl : pid2 = pid := by simpa [opPlanId] using hpid
      simp [run, schedule_followup_appointments, schedule_followup_appointments_body,
        hex, Except.map]
  | provideDischargeEducation c pid2 t m comp =>
      obtain rfl : pid2 = pid := by simpa [opPlanId] using hpid
      simp [run, provide_discharge_education, provide_discharge_education_body,
        hex, Except.map]
  | coordinateWithSnf c pid2 snf bed tr sum =>
      obtain rfl : pid2 = pid := by simpa [opPlanId] using hpid
      simp [run, coordinate_with_snf, coordinate_with_snf_body, hex, Except.map]
  | completeDischarge c pid2 act sum =>
      obtain rfl : pid2 = pid := by simpa [opPlanId] using hpid
      simp [run, complete_discharge, complete_discharge_body, hex, Except.map]
  | trackReadmissionRisk c pid2 f sc =>
      obtain rfl : pid2 = pid := by simpa [opPlanId] using hpid
      simp [run, track_readmission_risk, track_readmission_risk_body, hex, Except.map]

/-- Witness for C6: assessing the never-created plan 42 on the concrete
store. -/
theorem c6_witness :
    run planState (.assessDischargeReadiness 5 42 1 2 3 4)
      = (.error .PlanNotFound, planState) :=
  c6_plan_not_found_gating planState (.assessDischargeReadiness 5 42 1 2 3 4) 42 rfl rfl

/-- C7: plan creation with a non-future expected discharge date always fails
with `InvalidDate` (no plan created, no plan id consumed); on an existing
plan, a DME order with a non-future delivery date and an SNF coordination
with a non-future transfer date each fail with `InvalidDate` and store
nothing. -/
theorem c7_date_validation :
    (∀ (s : State) (c p ad ed dd : Nat), ed ≤ ad →
        initiate_discharge_planning s c p ad ed dd = (.error .InvalidDate, s))
    ∧ (∀ (s : State) (c pid e sup del : Nat), (s.plans pid).isSome → del ≤ s.now →
        order_dme_for_discharge s c pid e sup del = (.error .InvalidDate, s))
    ∧ (∀ (s : State) (c pid snf : Nat) (bed : Bool) (tr sum : Nat),
        (s.plans pid).isSome → tr ≤ s.now →
        coordinate_with_snf s c pid snf bed tr sum = (.error .InvalidDate, s)) :=
  ⟨fun s c p ad ed dd h => initiate_invalid_date s c p ad ed dd h,
   fun s c pid e sup del hp hdel => dme_invalid_date s c pid e sup del hp hdel,
   fun s c pid snf bed tr sum hp htr => snf_invalid_date s c pid snf bed tr sum hp htr⟩

/-- Witness for C7 at concrete inputs: creation with expected ≤ admission,
and DME/SNF targets at or before the current ledger time. -/
theorem c7_witness :
    initiate_discharge_planning initialState 5 1 2000 1500 0
      = (.error .InvalidDate, initialState)
    ∧ order_dme_for_discharge planState 5 0 1 2 100 = (.error .InvalidDate, planState)
    ∧ coordinate_with_snf planState 5 0 9 true 50 8 = (.error .InvalidDate, planState) :=
  ⟨c7_date_validation.1 initialState 5 1 2000 1500 0 (by decide),
   c7_date_validation.2.1 planState 5 0 1 2 100 (by decide) (by decide),
   c7_date_validation.2.2 planState 5 0 9 true 50 8 (by decide) (by decide)⟩

/-- C8: the code does NOT refresh the retention horizon on every write — the
plan-record write that sets `is_completed` inside `mark_discharge_completed`
leaves the plan key's TTL untouched (here it stays 0) even though the
completion-record write of the very same invocation, and every other save
path (risk shown as a sample), extend their key's TTL to `YEAR_IN_LEDGERS`. -/
theorem c8_completed_plan_ttl_not_refreshed :
    (complete_discharge planState 5 0 400 7).1 = .ok ()
    ∧ (complete_discharge planState 5 0 400 7).2.plans 0
        = some { basePlan with is_completed := true }
    ∧ (complete_discharge planState 5 0 400 7).2.ttl (StorageKey.Plan 0) = 0
    ∧ (complete_discharge planState 5 0 400 7).2.ttl (StorageKey.Completed 0)
        = YEAR_IN_LEDGERS
    ∧ (save_readmission_risk planState 0 1 50).ttl (StorageKey.Risk 0)
        = YEAR_IN_LEDGERS
    ∧ YEAR_IN_LEDGERS ≠ 0 := by
  have heq := complete_success planState 5 0 400 7 basePlan rfl rfl
  obtain ⟨hplan, -, -, -, -, -, -, httlp, httlc⟩ :=
    mark_completed_facts planState 0 400 7 basePlan rfl
  refine ⟨by rw [heq], by rw [heq]; exact hplan, ?_, ?_, ?_, by decide⟩
  · rw [heq]
    show (mark_discharge_completed planState 0 400 7).ttl (StorageKey.Plan 0) = 0
    rw [httlp]
    rfl
  · rw [heq]
    show (mark_discharge_completed planState 0 400 7).ttl (StorageKey.Completed 0)
        = YEAR_IN_LEDGERS
    rw [httlc]
    rfl
  · simp [save_readmission_risk, planState, initialState, YEAR_IN_LEDGERS]

/-- C9: completion does not gate the dependent-record operations — on a plan
that is already completed, readiness assessment, order creation, home-health
arrangement, DME ordering, appointment scheduling, education provision, SNF
coordination and risk tracking with otherwise valid inputs all still succeed
and write their records; only a repeated `complete_discharge` is rejected. -/
theorem c9_completion_does_not_gate (s : State) (pid : Nat) (p : DischargePlan)
    (hp : s.plans pid = some p) (hcomp : p.is_completed = true) :
    (∀ c a b cc d, a ≤ 100 → b ≤ 100 → cc ≤ 100 → d ≤ 100 →
      ∃ r : ReadinessScore, (assess_discharge_readiness s c pid a b cc d).1 = .ok r
        ∧ (assess_discharge_readiness s c pid a b cc d).2.readiness pid = some r)
    ∧ (∀ c t h, (create_discharge_orders s c pid t h).1 = .ok ()
        ∧ (create_discharge_orders s c pid t h).2.orders pid
            = some ((s.orders pid).getD []
                ++ [{ order_type := t, order_details_hash := h, created_at := s.now }]))
    ∧ (∀ c a t f d, f ≠ 0 → d ≠ 0 →
        (arrange_home_health s c pid a t f d).1 = .ok ()
        ∧ (arrange_home_health s c pid a t f d).2.homeHealth pid
            = some { agency_id := a, service_type := t, frequency_per_week := f,
                     duration_weeks := d, arranged_at := s.now })
    ∧ (∀ c e sup del, s.now < del →
        (order_dme_for_discharge s c pid e sup del).1 = .ok ()
        ∧ (order_dme_for_discharge s c pid e sup del).2.dme pid
            = some ((s.dme pid).getD []
                ++ [{ equipment_type := e, supplier_id := sup, delivery_date := del,
                      ordered_at := s.now }]))
    ∧ (∀ c apps, apps ≠ [] → (∀ a ∈ apps, s.now < a.scheduled_time) →
        ∃ ids, (schedule_followup_appointments s c pid apps).1 = .ok ids
          ∧ (schedule_followup_appointments s c pid apps).2.appointments pid
              = some ((s.appointments pid).getD [] ++ apps))
    ∧ (∀ c t m comp, (provide_discharge_education s c pid t m comp).1 = .ok ()
        ∧ (provide_discharge_education s c pid t m comp).2.education pid
            = some ((s.education pid).getD []
                ++ [{ education_topic := t, materials_hash := m, completed := comp,
                      provided_at := s.now }]))
    ∧ (∀ c snf bed tr sum, s.now < tr →
        (coordinate_with_snf s c pid snf bed tr sum).1 = .ok ()
        ∧ (coordinate_with_snf s c pid snf bed tr sum).2.snfCoord pid
            = some { snf_id := snf, bed_reserved := bed, transfer_date := tr,
                     medical_summary_hash := sum, coordinated_at := s.now })
    ∧ (∀ c f sc, sc ≤ 100 →
        (track_readmission_risk s c pid f sc).1 = .ok ()
        ∧ (track_readmission_risk s c pid f sc).2.risk pid
            = some { risk_factors := f, risk_score := sc, tracked_at := s.now })
    ∧ (∀ c act sum, complete_discharge s c pid act sum = (.error .AlreadyCompleted, s)) := by
  have hps : (s.plans pid).isSome := by simp [hp]
  refine ⟨?_, ?_, ?_, ?_, ?_, ?_, ?_, ?_, ?_⟩
  · intro c a b cc d ha hb hc hd
    have heq := assess_success s c pid a b cc d hps ha hb hc hd
    exact ⟨_, by rw [heq], by rw [heq]; simp [save_readiness_assessment]⟩
  · intro c t h
    have heq := create_orders_success s c pid t h hps
    exact ⟨by rw [heq], by rw [heq]; simp [add_discharge_order]⟩
  · intro c a t f d hf hd
    have heq := arrange_success s c pid a t f d hps hf hd
    exact ⟨by rw [heq], by rw [heq]; simp [save_home_health_arrangement]⟩
  · intro c e sup del hdel
    have heq := dme_success s c pid e sup del hps hdel
    exact ⟨by rw [heq], by rw [heq]; simp [save_dme_order]⟩
  · intro c apps hne hval
    have hex : discharge_plan_exists s pid := hps
    have hemp : apps.isEmpty = false := by
      cases apps with
      | nil => exact absurd rfl hne
      | cons a rest => rfl
    obtain ⟨s', hloop, happ, -, -⟩ := scheduleLoop_valid pid s.now apps s hval
    have heq : schedule_followup_appointments s c pid apps
        = (.ok (List.range' (s.appointmentCounter.getD 0) apps.length), s') := by
      simp [schedule_followup_appointments, schedule_followup_appointments_body,
        hex, hemp, hloop]
    refine ⟨_, by rw [heq], ?_⟩
    rw [heq]
    show s'.appointments pid = _
    rw [happ, hemp]
    simp
  · intro c t m comp
    have heq := education_success s c pid t m comp hps
    exact ⟨by rw [heq], by rw [heq]; simp [save_education_record]⟩
  · intro c snf bed tr sum htr
    have heq := snf_success s c pid snf bed tr sum hps htr
    exact ⟨by rw [heq], by rw [heq]; simp [save_snf_coordination]⟩
  · intro c f sc hsc
    have heq := risk_success s c pid f sc hps hsc
    exact ⟨by rw [heq], by rw [heq]; simp [save_readmission_risk]⟩
  · intro c act sum
    exact complete_already_completed s c pid act sum p hp hcomp

/-- Witness for C9 on the concrete store whose plan 0 is already completed:
one sample operation of each kind still succeeds, and a second completion is
rejected. -/
theorem c9_witness :
    (∃ r : ReadinessScore,
        (assess_discharge_readiness completedPlanState 5 0 80 75 85 70).1 = .ok r
        ∧ (assess_discharge_readiness completedPlanState 5 0 80 75 85 70).2.readiness 0
            = some r)
    ∧ ((create_discharge_orders completedPlanState 5 0 1 2).1 = .ok ()
        ∧ (create_discharge_orders completedPlanState 5 0 1 2).2.orders 0
            = some ((completedPlanState.orders 0).getD []
                ++ [{ order_type := 1, order_details_hash := 2,
                      created_at := completedPlanState.now }]))
    ∧ ((track_readmission_risk completedPlanState 5 0 3 40).1 = .ok ()
        ∧ (track_readmission_risk completedPlanState 5 0 3 40).2.risk 0
            = some { risk_factors := 3, risk_score := 40,
                     tracked_at := completedPlanState.now })
    ∧ complete_discharge completedPlanState 5 0 450 9
        = (.error .AlreadyCompleted, completedPlanState) := by
  have h := c9_completion_does_not_gate completedPlanState 0
    { basePlan with is_completed := true } rfl rfl
  exact ⟨h.1 5 80 75 85 70 (by decide) (by decide) (by decide) (by decide),
    h.2.1 5 1 2, h.2.2.2.2.2.2.2.1 5 3 40 (by decide),
    h.2.2.2.2.2.2.2.2 5 450 9⟩

/-- C10: the four sub-scores are validated against 100 before being summed,
so the mod-2^32 machine addition is exact (the sum is at most 400) and every
readiness record ever returned by the assessment — and every one ever present
in the store after any operation — has a total score in [0, 100]. -/
theorem c10_score_sum_no_overflow :
    (∀ a b cc d : Nat, a ≤ 100 → b ≤ 100 → cc ≤ 100 → d ≤ 100 →
      a + b + cc + d ≤ 400 ∧ (a + b + cc + d) % 2 ^ 32 = a + b + cc + d)
    ∧ (∀ (s : State) (c pid a b cc d : Nat) (r : ReadinessScore),
        (assess_discharge_readiness s c pid a b cc d).1 = .ok r →
        r.total_score = (a + b + cc + d) / 4 ∧ r.total_score ≤ 100)
    ∧ (∀ (s : State) (op : Op) (pid : Nat),
        (stepState s op).readiness pid = s.readiness pid
        ∨ ∃ r : ReadinessScore, (stepState s op).readiness pid = some r
            ∧ r.total_score ≤ 100) := by
  refine ⟨?_, ?_, ?_⟩
  · intro a b cc d ha hb hc hd
    refine ⟨by omega, Nat.mod_eq_of_lt (by omega)⟩
  · intro s c pid a b cc d r hok
    by_cases h1 : discharge_plan_exists s pid
    · by_cases h2 : a > 100 ∨ b > 100 ∨ cc > 100 ∨ d > 100
      · simp [assess_discharge_readiness, assess_discharge_readiness_body,
          h1, h2] at hok
      · push_neg at h2
        obtain ⟨ha, hb, hc, hd⟩ := h2
        have heq := assess_success s c pid a b cc d
          (by simpa [discharge_plan_exists] using h1) ha hb hc hd
        rw [heq] at hok
        have hok2 : Except.ok (⟨pid, a, b, cc, d, (a + b + cc + d) / 4,
            decide ((a + b + cc + d) / 4 ≥ 75), s.now⟩ : ReadinessScore)
            = Except.ok r := hok
        injection hok2 with hok3
        subst hok3
        refine ⟨rfl, ?_⟩
        show (a + b + cc + d) / 4 ≤ 100
        have hsum : a + b + cc + d ≤ 400 := by omega
        calc (a + b + cc + d) / 4 ≤ 400 / 4 := Nat.div_le_div_right hsum
        _ = 100 := by norm_num
    · simp [assess_discharge_readiness, assess_discharge_readiness_body, h1] at hok
  · intro s op pid
    exact step_readiness_bound s op pid

/-- Witness for C10: the bound at the extreme allowed scores, the returned
record of a concrete assessment, and the store bound after a concrete
operation. -/
theorem c10_witness :
    ((100 : Nat) + 100 + 100 + 100 ≤ 400
      ∧ ((100 : Nat) + 100 + 100 + 100) % 2 ^ 32 = 100 + 100 + 100 + 100)
    ∧ (exReadiness77.total_score = (80 + 75 + 85 + 70) / 4
      ∧ exReadiness77.total_score ≤ 100)
    ∧ ((stepState planState (.trackReadmissionRisk 5 0 1 50)).readiness 0
          = planState.readiness 0
        ∨ ∃ r : ReadinessScore,
            (stepState planState (.trackReadmissionRisk 5 0 1 50)).readiness 0 = some r
            ∧ r.total_score ≤ 100) :=
  ⟨c10_score_sum_no_overflow.1 100 100 100 100 (by decide) (by decide)
      (by decide) (by decide),
   c10_score_sum_no_overflow.2.1 planState 5 0 80 75 85 70 exReadiness77 rfl,
   c10_score_sum_no_overflow.2.2 planState (.trackReadmissionRisk 5 0 1 50) 0⟩

end HospitalDischarge
